import Mathlib

/-!
Verification development for the Bonsai interactive snapping engine
(`src/bonsai/bonsai/tool/snap.py` and the numeric-input branch of
`src/bonsai/bonsai/bim/module/model/polyline.py`).

The Python code is shallowly embedded over exact rationals.  Blender
collaborators (`mathutils`, `tool.Raycast`, `bpy` scene data) are external to
the repository: their per-tick results are passed in as explicit inputs, and
`mathutils.Matrix.Rotation` is abstracted as a rotation action supplied by the
caller.  Repository helpers that are not shipped under `src/` (`tool.Cad`) are
modelled from the specification and marked as such.
-/

/-- Exact 3d vector, standing for `mathutils.Vector` triples. -/
structure Vec3 where
  x : ℚ
  y : ℚ
  z : ℚ
deriving DecidableEq

namespace Vec3

def add (a b : Vec3) : Vec3 := ⟨a.x + b.x, a.y + b.y, a.z + b.z⟩

def sub (a b : Vec3) : Vec3 := ⟨a.x - b.x, a.y - b.y, a.z - b.z⟩

def smul (k : ℚ) (a : Vec3) : Vec3 := ⟨k * a.x, k * a.y, k * a.z⟩

def dot (a b : Vec3) : ℚ := a.x * b.x + a.y * b.y + a.z * b.z

def cross (a b : Vec3) : Vec3 :=
  ⟨a.y * b.z - a.z * b.y, a.z * b.x - a.x * b.z, a.x * b.y - a.y * b.x⟩

/-- Squared euclidean length; `mathutils` orders vectors by length, and the
    code sorts mixed snaps "to get the shortest first". -/
def lenSq (a : Vec3) : ℚ := a.x * a.x + a.y * a.y + a.z * a.z

def zero : Vec3 := ⟨0, 0, 0⟩

instance : Add Vec3 := ⟨add⟩
instance : Sub Vec3 := ⟨sub⟩

theorem sub_def (a b : Vec3) : a - b = ⟨a.x - b.x, a.y - b.y, a.z - b.z⟩ := rfl

theorem add_def (a b : Vec3) : a + b = ⟨a.x + b.x, a.y + b.y, a.z + b.z⟩ := rfl

theorem smul_eq_zero_iff (k : ℚ) (v : Vec3) (hk : k ≠ 0) :
    smul k v = zero ↔ v = zero := by
  constructor
  · intro h
    cases v
    simp only [smul, zero, Vec3.mk.injEq] at h ⊢
    exact ⟨by rcases mul_eq_zero.mp h.1 with h1 | h1; exact absurd h1 hk; exact h1,
           by rcases mul_eq_zero.mp h.2.1 with h1 | h1; exact absurd h1 hk; exact h1,
           by rcases mul_eq_zero.mp h.2.2 with h1 | h1; exact absurd h1 hk; exact h1⟩
  · intro h
    subst h
    simp [smul, zero]

theorem sub_eq_zero_iff (a b : Vec3) : a - b = zero ↔ a = b := by
  cases a; cases b
  simp only [sub_def, zero, Vec3.mk.injEq, sub_eq_zero]

theorem ne_zero_iff (v : Vec3) : v ≠ zero ↔ v.x ≠ 0 ∨ v.y ≠ 0 ∨ v.z ≠ 0 := by
  cases v
  simp only [zero, ne_eq, Vec3.mk.injEq, not_and_or]

end Vec3

/-- Blender object reference; `update_snapping_point` persists only the name. -/
abbrev Obj := String

/-- One snap point produced by the external `tool.Raycast` collaborator: a
    dict `{"type": ..., "point": ..., "edge_verts": ...}`.  `edge_verts` is
    carried by `Edge`-typed results (the generating segment) and absent
    otherwise. -/
structure RayPoint where
  type : String
  point : Vec3
  edge_verts : Option (Vec3 × Vec3)
deriving DecidableEq

/-- An element of the `snapping_points` list inside
    `Snap.select_snapping_points`: `(point, snap type, source object)`. -/
abbrev SnapPoint := Vec3 × String × Option Obj

/-- One entry of the `detected_snaps` list returned by
    `Snap.detect_snapping_points`.  Each constructor mirrors one of the dict
    shapes appended by the source (keys `group`, `points`, `object`, `point`,
    `face_index`, `axis_start`, `axis_end`). -/
inductive DetectedSnap where
  | polyline (points : List RayPoint)
  | measure (points : List RayPoint)
  | edgeVertex (object : Obj) (points : List RayPoint)
  | object (point : Vec3) (object : Obj) (face_index : Nat)
  | axis (point : Vec3) (axis_start axis_end : Vec3)
  | plane (point : Vec3)
deriving DecidableEq

/-- The `"group"` tag of a detected snap dict. -/
def DetectedSnap.group : DetectedSnap → String
  | .polyline _ => "Polyline"
  | .measure _ => "Measure"
  | .edgeVertex _ _ => "Edge-Vertex"
  | .object _ _ _ => "Object"
  | .axis _ _ _ => "Axis"
  | .plane _ => "Plane"

/-- The snapping-relevant fields of the Python `tool_state` object.  Fields
    used only by the UI layer (mode, input type, instructions) are omitted.
    `snap_angle` is an `Option` because the source stores the second component
    of `snap_on_axis`'s return value into it, which can be Python `None`. -/
structure ToolState where
  axis_method : Option String
  plane_method : Option String
  lock_axis : Bool
  snap_angle : Option ℚ
  use_default_container : Bool
  plane_origin : Vec3
deriving DecidableEq

/-- User snap settings: the names of the enabled `BIMSnapProperties` (snap
    kinds) and `BIMSnapGroups` (snap groups) toggles.  The property registry
    itself lives outside `src/`, so the enabled names are abstract. -/
structure SnapSettings where
  pointProps : List String
  groupProps : List String
deriving DecidableEq

/-- Abstract rotation action standing for the external
    `mathutils.Matrix.Rotation(math.radians(angle), 3, pivot_axis)`:
    `apply pivot angle v` is `rot_mat @ v` and `applyInv pivot angle v` is
    `rot_mat.inverted() @ v`, with `angle` in degrees. -/
structure Rot where
  apply : String → ℚ → Vec3 → Vec3
  applyInv : String → ℚ → Vec3 → Vec3

/-- Scene data read directly by `snap_on_axis`: the committed points of the
    insertion polyline and the default container elevation. -/
structure SnapEnv where
  polyline_points : List Vec3
  elevation : ℚ

/-! ## Spec-modelled `tool.Cad` helpers

`bonsai.tool.Cad` is repository code that is not shipped under `src/`; the
three helpers used by the snapping engine are modelled from the spec. -/

/-- Modelled from the spec: `tool.Cad.intersect_edge_plane` is missing from
    `src/`.  Per the spec's geometry primitives, a ray/line-plane intersection
    "returns `None` when the ray is parallel to the plane" (zero denominator
    over exact rationals) and otherwise the unique point of the line through
    `v1`, `v2` on the plane through `plane_co` with normal `plane_no`. -/
def intersect_edge_plane (v1 v2 plane_co plane_no : Vec3) : Option Vec3 :=
  let d := v2 - v1
  let denom := Vec3.dot d plane_no
  if denom = 0 then none
  else some (v1 + Vec3.smul (Vec3.dot (plane_co - v1) plane_no / denom) d)

/-- Modelled from the spec: `tool.Cad.are_vectors_equal` is missing from
    `src/`.  The spec asks whether two candidates "coincide within tolerance"
    (0.1 units at the call site): distance below the tolerance. -/
def are_vectors_equal (v1 v2 : Vec3) (tolerance : ℚ) : Bool :=
  decide (Vec3.lenSq (v2 - v1) < tolerance * tolerance)

/-- Modelled from the spec: `tool.Cad.intersect_edges_v2` is missing from
    `src/`.  Per the spec's `edges_intersect`, it "returns the unique
    intersection point of two coplanar-ish 3D segments" and "`None` if
    segments are parallel": the closest points of the two carrier lines,
    like `mathutils.geometry.intersect_line_line`; the caller uses the second
    component. -/
def intersect_edges_v2 (e1 e2 : Vec3 × Vec3) : Option Vec3 × Option Vec3 :=
  let d1 := e1.2 - e1.1
  let d2 := e2.2 - e2.1
  let n := Vec3.cross d1 d2
  if Vec3.lenSq n = 0 then (none, none)
  else
    let r := e2.1 - e1.1
    let t1 := Vec3.dot (Vec3.cross r d2) n / Vec3.lenSq n
    let t2 := Vec3.dot (Vec3.cross r d1) n / Vec3.lenSq n
    (some (e1.1 + Vec3.smul t1 d1), some (e2.1 + Vec3.smul t2 d2))

/-! ## Python `sorted` on `(Vector, "Mix")` tuples

`mix_snap_and_axis` sorts `(Vector, str)` pairs; `mathutils` orders vectors by
length, and Python's sort is stable, treating equal-length vectors as equal.
`pyInsert`/`pySort` model that stable sort by squared length. -/

def pyInsert (x : Vec3 × String) : List (Vec3 × String) → List (Vec3 × String)
  | [] => [x]
  | y :: ys =>
    if Vec3.lenSq x.1 < Vec3.lenSq y.1 then x :: y :: ys else y :: pyInsert x ys

def pySort (l : List (Vec3 × String)) : List (Vec3 × String) :=
  l.foldl (fun acc x => pyInsert x acc) []

theorem pyInsert_perm (x : Vec3 × String) (l : List (Vec3 × String)) :
    List.Perm (pyInsert x l) (x :: l) := by
  induction l with
  | nil => simp [pyInsert]
  | cons y ys ih =>
    simp only [pyInsert]
    split
    · exact List.Perm.refl _
    · exact List.Perm.trans (List.Perm.cons y ih) (List.Perm.swap x y ys)

theorem pySort_perm (l : List (Vec3 × String)) : List.Perm (pySort l) l := by
  suffices h : ∀ acc, List.Perm (l.foldl (fun acc x => pyInsert x acc) acc) (l ++ acc) by
    simpa using h []
  induction l with
  | nil => intro acc; simp
  | cons x xs ih =>
    intro acc
    have h1 : List.Perm ((x :: xs).foldl (fun acc x => pyInsert x acc) acc)
        (xs ++ pyInsert x acc) := ih (pyInsert x acc)
    have h2 : List.Perm (xs ++ pyInsert x acc) (xs ++ (x :: acc)) :=
      List.Perm.append_left xs (pyInsert_perm x acc)
    have h3 : List.Perm (xs ++ (x :: acc)) (x :: (xs ++ acc)) := List.perm_middle
    exact List.Perm.trans h1 (List.Perm.trans h2 h3)

theorem pyInsert_sorted (x : Vec3 × String) (l : List (Vec3 × String))
    (h : l.Pairwise (fun a b => Vec3.lenSq a.1 ≤ Vec3.lenSq b.1)) :
    (pyInsert x l).Pairwise (fun a b => Vec3.lenSq a.1 ≤ Vec3.lenSq b.1) := by
  induction l with
  | nil => simp [pyInsert]
  | cons y ys ih =>
    simp only [pyInsert]
    rcases List.pairwise_cons.mp h with ⟨hy, hys⟩
    split
    · rename_i hlt
      refine List.pairwise_cons.mpr ⟨?_, h⟩
      intro b hb
      rcases List.mem_cons.mp hb with hb | hb
      · subst hb; exact le_of_lt hlt
      · exact le_trans (le_of_lt hlt) (hy b hb)
    · rename_i hge
      refine List.pairwise_cons.mpr ⟨?_, ih hys⟩
      intro b hb
      have hb2 := (pyInsert_perm x ys).mem_iff.mp hb
      rcases List.mem_cons.mp hb2 with hb2 | hb2
      · subst hb2; exact le_of_not_lt hge
      · exact hy b hb2

theorem pySort_sorted (l : List (Vec3 × String)) :
    (pySort l).Pairwise (fun a b => Vec3.lenSq a.1 ≤ Vec3.lenSq b.1) := by
  suffices h : ∀ acc, acc.Pairwise (fun a b => Vec3.lenSq a.1 ≤ Vec3.lenSq b.1) →
      (l.foldl (fun acc x => pyInsert x acc) acc).Pairwise
        (fun a b => Vec3.lenSq a.1 ≤ Vec3.lenSq b.1) by
    exact h [] (by simp)
  induction l with
  | nil => intro acc hacc; simpa using hacc
  | cons x xs ih =>
    intro acc hacc
    exact ih (pyInsert x acc) (pyInsert_sorted x acc hacc)

/-! ## `Snap.snap_on_axis` (snap.py lines 142-241) -/

/-- The list of candidate angles built at snap.py lines 190-196: twelve
    30-degree increments when `lock_axis` is off, otherwise the single
    `tool_state.snap_angle` (which may be Python `None`). -/
def snapAxisAngles (ts : ToolState) : List (Option ℚ) :=
  if !ts.lock_axis then (List.range 12).map (fun i => some (30 * ((i : ℚ) + 1)))
  else [ts.snap_angle]

/-- The `pivot_axis` chosen at snap.py lines 198-202. -/
def pivotAxis (ts : ToolState) : String :=
  if ts.plane_method = some "XZ" then "Y"
  else if ts.plane_method = some "YZ" then "X"
  else "Z"

/-- The perpendicular deviation (`proximity`) of the translated intersection
    in the frame rotated by `360 - angle` around the pivot axis
    (snap.py lines 210-214). -/
def axisProximity (R : Rot) (ts : ToolState) (translated : Vec3) (angle : ℚ) : ℚ :=
  let rot_intersection := R.apply (pivotAxis ts) (360 - angle) translated
  if ts.plane_method = some "XZ" then rot_intersection.z else rot_intersection.y

/-- The `elegible_axis` list of `(abs proximity, angle)` pairs
    (snap.py lines 205-218); falsy angles (`None` and `0`) are skipped. -/
def elegibleAxes (R : Rot) (ts : ToolState) (translated : Vec3) : List (ℚ × ℚ) :=
  (snapAxisAngles ts).filterMap (fun a =>
    match a with
    | none => none
    | some angle =>
      if angle = 0 then none
      else
        let p := |axisProximity R ts translated angle|
        if p ≤ 15 / 100 then some (p, angle) else none)

/-- One fold step of the lexicographic minimum below. -/
def lexStep (acc : Option (ℚ × ℚ)) (x : ℚ × ℚ) : Option (ℚ × ℚ) :=
  match acc with
  | none => some x
  | some m => if x.1 < m.1 ∨ (x.1 = m.1 ∧ x.2 ≤ m.2) then some x else some m

/-- `sorted(elegible_axis)[0]`: the lexicographic minimum of the
    `(proximity, angle)` pairs. -/
def lexMin (l : List (ℚ × ℚ)) : Option (ℚ × ℚ) :=
  l.foldl lexStep none

/-- The `last_point` read by `snap_on_axis` (snap.py lines 179-186): the last
    committed polyline vertex, or the default container origin. -/
def snapLastPoint (env : SnapEnv) : Vec3 :=
  match env.polyline_points.getLast? with
  | some p => p
  | none => ⟨0, 0, env.elevation⟩

/-- `create_axis_line_data` (snap.py lines 144-153): the infinite reference
    line endpoints at `origin ± 1000 * (rot_mat.inverted() @ direction)`. -/
def create_axis_line_data (R : Rot) (ts : ToolState) (angle : ℚ) (origin : Vec3) :
    Vec3 × Vec3 :=
  let length : ℚ := 1000
  let direction : Vec3 :=
    if ts.plane_method = some "YZ" ∨ (ts.plane_method = none ∧ ts.axis_method = some "Z")
    then ⟨0, 0, 1⟩ else ⟨1, 0, 0⟩
  let rot_dir := R.applyInv (pivotAxis ts) (360 - angle) direction
  (origin + Vec3.smul length rot_dir, origin - Vec3.smul length rot_dir)

/-- `Snap.snap_on_axis` (snap.py lines 142-241).  The outer `Option` is a
    Python `TypeError`: when `lock_axis` is set, no candidate is eligible and
    the leaked loop variable `axis` is `None`, the code would compute
    `radians(360 - None)`.  Note the `lock_angle` parameter of the source is
    never read by the body, which tests `tool_state.lock_axis` instead. -/
def snap_on_axis (R : Rot) (env : SnapEnv) (intersection : Vec3) (ts : ToolState) :
    Option (Option Vec3 × Option ℚ × Option Vec3 × Option Vec3) :=
  let last_point : Vec3 := snapLastPoint env
  let translated := intersection - last_point
  let elig := elegibleAxes R ts translated
  -- After the `for axis in snap_axis` loop Python leaves `axis` bound to the
  -- last element of `snap_axis`; `sorted(elegible_axis)[0]` overrides it when
  -- any axis is eligible.
  let axisPick : Option ℚ :=
    match lexMin elig with
    | some m => some m.2
    | none => (snapAxisAngles ts).getLastD none
  if !elig.isEmpty || ts.lock_axis then
    match axisPick with
    | none => none
    | some angle =>
      let rot_intersection := R.apply (pivotAxis ts) (360 - angle) translated
      let line := create_axis_line_data R ts angle last_point
      let rot_intersection : Vec3 := ⟨rot_intersection.x, 0, rot_intersection.z⟩
      let rot_intersection : Vec3 :=
        if ts.plane_method = some "XZ" then ⟨rot_intersection.x, rot_intersection.y, 0⟩
        else rot_intersection
      let snap_intersection :=
        R.applyInv (pivotAxis ts) (360 - angle) rot_intersection + last_point
      some (some snap_intersection, some angle, some line.1, some line.2)
  else
    some (none, none, none, none)

/-! ## `Snap.mix_snap_and_axis` (snap.py lines 243-252) -/

/-- `Snap.mix_snap_and_axis`: intersect the locked axis line with the three
    axis-aligned planes through the snap point, tag the existing ones `"Mix"`
    and sort them shortest first. -/
def mix_snap_and_axis (snap_point : SnapPoint) (axis_start axis_end : Vec3) :
    List (Vec3 × String) :=
  let intersections : List (Option Vec3) :=
    [intersect_edge_plane axis_start axis_end snap_point.1 ⟨1, 0, 0⟩,
     intersect_edge_plane axis_start axis_end snap_point.1 ⟨0, 1, 0⟩,
     intersect_edge_plane axis_start axis_end snap_point.1 ⟨0, 0, 1⟩]
  pySort ((intersections.filterMap id).map (fun i => (i, "Mix")))

/-! ## `Snap.select_snapping_points` (snap.py lines 520-615) -/

/-- `filter_snapping_points_based_on_settings` (snap.py lines 522-530):
    keep points whose snap type is `"Plane"`, `"Axis"`, or an enabled
    `BIMSnapProperties` name. -/
def filter_snapping_points_based_on_settings (s : SnapSettings)
    (snapping_points : List SnapPoint) : List SnapPoint :=
  let options := ["Plane", "Axis"] ++ s.pointProps
  snapping_points.filter (fun p => decide (p.2.1 ∈ options))

/-- `filter_snapping_groups_based_on_settings` (snap.py lines 532-539):
    keep groups named `"Edge-Vertex"`, `"Axis"`, `"Plane"`, or an enabled
    `BIMSnapGroups` name. -/
def filter_snapping_groups_based_on_settings (s : SnapSettings)
    (detected_snaps : List DetectedSnap) : List DetectedSnap :=
  let options := ["Edge-Vertex", "Axis", "Plane"] ++ s.groupProps
  detected_snaps.filter (fun g => decide (g.group ∈ options))

/-- The first `for snap_group in filtered_snaps` loop of
    `select_snapping_points` (snap.py lines 544-577): accumulates
    `snapping_points` and the `edges` list, and `break`s after the first
    `Polyline`, `Measure` or `Object` group.  `prox obj face_index` is the
    external `tool.Raycast.ray_cast_by_proximity(context, event, obj, face)`
    call made for `Object` groups; the `verts` computed there are dead code.
    `Axis` and `Plane` groups are skipped by this loop. -/
def collectPoints (prox : Obj → Nat → List RayPoint) :
    List DetectedSnap → List SnapPoint × List RayPoint
  | [] => ([], [])
  | g :: rest =>
    match g with
    | .polyline pts => (pts.map (fun p => (p.point, p.type, (none : Option Obj))), [])
    | .measure pts =>
      (pts.map (fun p => (p.point, p.type, (none : Option Obj))),
       pts.filter (fun p => p.type = "Edge"))
    | .edgeVertex obj pts =>
      let r := collectPoints prox rest
      (pts.map (fun p => (p.point, p.type, some obj)) ++ r.1,
       pts.filter (fun p => p.type = "Edge") ++ r.2)
    | .object pt obj face_index =>
      let snap_points := prox obj face_index
      (if snap_points.isEmpty then [(pt, "Face", some obj)]
       else snap_points.map (fun p => (p.point, p.type, some obj)),
       snap_points.filter (fun p => p.type = "Edge"))
    | .axis _ _ _ => collectPoints prox rest
    | .plane _ => collectPoints prox rest

/-- The second `for snap_group in filtered_snaps` loop (snap.py lines
    579-586): appends the `Axis` and `Plane` group points, with the leaked
    `snap_obj = None` as source object. -/
def axisPlanePoints : List DetectedSnap → List SnapPoint
  | [] => []
  | .axis pt _ _ :: rest => (pt, "Axis", none) :: axisPlanePoints rest
  | .plane pt :: rest => (pt, "Plane", none) :: axisPlanePoints rest
  | _ :: rest => axisPlanePoints rest

/-- The values of the Python locals `axis_start`, `axis_end` after the second
    loop: the endpoints stored by the last `Axis` group, if any. -/
def lastAxisLine : List DetectedSnap → Option (Vec3 × Vec3)
  | [] => none
  | .axis _ s e :: rest =>
    match lastAxisLine rest with
    | some r => some r
    | none => some (s, e)
  | _ :: rest => lastAxisLine rest

/-- The edges-intersection pass (snap.py lines 588-594): walk the cyclically
    adjacent pairs of `edges`; for coinciding pairs whose edges intersect,
    `insert(0, ...)` an `"Edge Intersection"` point.  Because each insertion
    goes to index 0, the pass output lists the synthesized points in reverse
    pair order; they all precede the existing `snapping_points`. -/
def edgeIntStep (acc : List SnapPoint) (pair : RayPoint × RayPoint) : List SnapPoint :=
  if are_vectors_equal pair.1.point pair.2.point (1 / 10) then
    match pair.1.edge_verts, pair.2.edge_verts with
    | some ev1, some ev2 =>
      match (intersect_edges_v2 ev1 ev2).2 with
      | some i => (i, "Edge Intersection", (none : Option Obj)) :: acc
      | none => acc
    | _, _ => acc
  else acc

def edge_intersection_points (edges : List RayPoint) : List SnapPoint :=
  (edges.zip (edges.drop 1 ++ edges.take 1)).foldl edgeIntStep []

/-- The full pre-settings-filter `snapping_points` list built by
    `select_snapping_points` up to line 594. -/
def assembledPoints (prox : Obj → Nat → List RayPoint) (s : SnapSettings)
    (detected_snaps : List DetectedSnap) : List SnapPoint :=
  let filtered_snaps := filter_snapping_groups_based_on_settings s detected_snaps
  let collected := collectPoints prox filtered_snaps
  let snapping_points := collected.1 ++ axisPlanePoints filtered_snaps
  (if collected.2.isEmpty then [] else edge_intersection_points collected.2)
    ++ snapping_points

/-- The observable outcome of one `select_snapping_points` call: the returned
    list, the `update_snapping_point` record (position, type, object name) and
    the `update_snapping_ref` record if written. -/
structure SelectResult where
  points : List SnapPoint
  recorded : SnapPoint
  ref : Option (Vec3 × String)
deriving DecidableEq

/-- Python runtime errors `select_snapping_points` can raise: indexing an
    empty `filtered_snapping_points` (line 600/612), indexing an empty
    `mixed_snap` (line 607), or referencing `axis_start` when no `Axis` group
    ever bound it (line 604). -/
inductive SelectErr where
  | emptyCandidateSet
  | emptyMix
  | missingAxisLine
deriving DecidableEq

/-- `Snap.select_snapping_points` (snap.py lines 520-615). -/
def select_snapping_points (prox : Obj → Nat → List RayPoint) (s : SnapSettings)
    (ts : ToolState) (detected_snaps : List DetectedSnap) :
    Except SelectErr SelectResult :=
  let filtered_snaps := filter_snapping_groups_based_on_settings s detected_snaps
  let filtered_snapping_points :=
    filter_snapping_points_based_on_settings s (assembledPoints prox s detected_snaps)
  -- Make Axis first priority (lines 598-610)
  if ts.lock_axis = true ∨ ts.axis_method = some "X" ∨ ts.axis_method = some "Y"
      ∨ ts.axis_method = some "Z" then
    match filtered_snapping_points with
    | [] => .error .emptyCandidateSet
    | p0 :: rest =>
      let refRecord := some (p0.1, p0.2.1)
      match (p0 :: rest).find? (fun p => p.2.1 = "Axis") with
      | some axPoint =>
        if p0.2.1 = "Axis" ∨ p0.2.1 = "Plane" then
          .ok ⟨p0 :: rest, (axPoint.1, axPoint.2.1, none), refRecord⟩
        else
          match lastAxisLine filtered_snaps with
          | none => .error .missingAxisLine
          | some line =>
            let mixed_snap := mix_snap_and_axis p0 line.1 line.2
            match mixed_snap with
            | [] => .error .emptyMix
            | m0 :: _ =>
              let inserted :=
                (mixed_snap.reverse.map (fun m => (m.1, m.2, (none : Option Obj))))
                  ++ p0 :: rest
              .ok ⟨inserted, (m0.1, m0.2, none), refRecord⟩
      | none =>
        .ok ⟨p0 :: rest, p0, refRecord⟩
  else
    match filtered_snapping_points with
    | [] => .error .emptyCandidateSet
    | p0 :: rest => .ok ⟨p0 :: rest, p0, none⟩

/-! ## `Snap.detect_snapping_points` (snap.py lines 254-518) -/

/-- Per-tick external inputs of `detect_snapping_points`: the scene data and
    the results of the `tool.Raycast` collaborator calls made during the tick.
    `polyline_points` are the committed insertion-polyline vertices;
    `polyline_cast`, `measure_casts` and `edge_vertex_casts` are the
    ray-cast results for the polyline, each measurement path and each
    eligible object; `object_casts` are the per-object
    `cast_rays_to_single_object` results `(hit_world, face_index)`;
    `ray_plane_cast` is `tool.Raycast.ray_cast_to_plane`; `view_normal` is the
    normalized camera view direction; `elevation` is the default container
    elevation. -/
structure DetectInputs where
  polyline_points : List Vec3
  polyline_cast : List RayPoint
  measure_casts : List (List RayPoint)
  edge_vertex_casts : List (Obj × List RayPoint)
  object_casts : List (Obj × Option (Vec3 × Nat))
  xray : Bool
  ray_origin : Vec3
  ray_plane_cast : Vec3 → Vec3 → Vec3
  view_normal : Vec3
  elevation : ℚ

/-- `select_plane_method` (snap.py lines 287-319), computing the construction
    plane origin and normal from the tool state and the last committed
    polyline point. -/
def select_plane_method (inps : DetectInputs) (ts : ToolState) : Vec3 × Vec3 :=
  let last_polyline_point := inps.polyline_points.getLast?
  let onFirst : Vec3 × Vec3 :=
    (⟨0, 0, 0⟩, ⟨0, 0, 1⟩)
  let onSecond : Vec3 × Vec3 :=
    if ts.plane_method = none then (⟨0, 0, 0⟩, inps.view_normal) else onFirst
  if ts.plane_method = some "XY" ∨
      (ts.plane_method = none ∧ (ts.axis_method = some "X" ∨ ts.axis_method = some "Y")) then
    let plane_origin :=
      if ts.use_default_container then (⟨0, 0, inps.elevation⟩ : Vec3)
      else match last_polyline_point with
        | none => ⟨0, 0, 0⟩
        | some lp => lp
    (plane_origin, ⟨0, 0, 1⟩)
  else if ts.plane_method = some "XZ" ∨ (ts.plane_method = none ∧ ts.axis_method = some "Z") then
    let plane_origin :=
      match last_polyline_point with
      | some lp => lp
      | none => onSecond.1
    (plane_origin, ⟨0, 1, 0⟩)
  else if ts.plane_method = some "YZ" then
    let plane_origin :=
      match last_polyline_point with
      | some lp => lp
      | none => onSecond.1
    (plane_origin, ⟨1, 0, 0⟩)
  else onSecond

/-- `cast_rays_and_get_best_object` (snap.py lines 340-361): the hit closest
    to the ray origin (the 1.0 initialization of `best_length_squared` is
    overridden on the first hit because `best_obj is None`). -/
def cast_rays_and_get_best_object (ray_origin : Vec3)
    (object_casts : List (Obj × Option (Vec3 × Nat))) : Option (Obj × Vec3 × Nat) :=
  let best := object_casts.foldl
    (fun best c =>
      match c.2 with
      | some hf =>
        let length_squared := Vec3.lenSq (hf.1 - ray_origin)
        match best with
        | none => some (c.1, hf.1, hf.2, length_squared)
        | some b => if length_squared < b.2.2.2 then some (c.1, hf.1, hf.2, length_squared)
                    else some b
      | none => best)
    none
  best.map (fun b => (b.1, b.2.1, b.2.2.1))

/-- The `Polyline`, `Measure`, `Edge-Vertex` and `Object` groups appended by
    `detect_snapping_points` (snap.py lines 374-460), in source order.  A
    group is appended only when its ray cast produced points; `EMPTY` objects
    contribute their singleton `Vertex` ray point through
    `edge_vertex_casts`. -/
def detectBase (inps : DetectInputs) : List DetectedSnap :=
  (if inps.polyline_points ≠ [] ∧ inps.polyline_cast ≠ []
   then [DetectedSnap.polyline inps.polyline_cast] else [])
  ++ (inps.measure_casts.filter (fun l => l ≠ [])).map DetectedSnap.measure
  ++ (inps.edge_vertex_casts.filter (fun c => c.2 ≠ [])).map
       (fun c => DetectedSnap.edgeVertex c.1 c.2)
  ++ (if inps.xray then
        inps.object_casts.filterMap
          (fun c => c.2.map (fun hf => DetectedSnap.object hf.1 c.1 hf.2))
      else
        match cast_rays_and_get_best_object inps.ray_origin inps.object_casts with
        | some b => [DetectedSnap.object b.2.1 b.1 b.2.2]
        | none => [])

/-- The snap-angle updates of `detect_snapping_points` (snap.py lines
    475-494), sequential conditional assignments to `tool_state.snap_angle`;
    the rules of the two source branches are guarded by their branch's
    `plane_method` condition. -/
def axisSnapAngleUpdate (ts : ToolState) : ToolState :=
  if ts.plane_method = none then
    let ts := if ts.axis_method = some "X" then { ts with snap_angle := some 180 } else ts
    let ts := if ts.axis_method = some "Y" then { ts with snap_angle := some 90 } else ts
    if ts.axis_method = some "Z" then { ts with snap_angle := some 90 } else ts
  else
    let ts := if (ts.plane_method = some "XY" ∨ ts.plane_method = some "XZ")
        ∧ ts.axis_method = some "X" then { ts with snap_angle := some 180 } else ts
    let ts := if (ts.plane_method = some "XY" ∨ ts.plane_method = some "YZ")
        ∧ ts.axis_method = some "Y" then { ts with snap_angle := some 90 } else ts
    let ts := if ts.plane_method = some "YZ" ∧ ts.axis_method = some "Z"
        then { ts with snap_angle := some 180 } else ts
    if ts.plane_method = some "XZ" ∧ ts.axis_method = some "Z"
        then { ts with snap_angle := some 90 } else ts

theorem axisSnapAngleUpdate_fields (ts : ToolState) :
    (axisSnapAngleUpdate ts).plane_method = ts.plane_method ∧
    (axisSnapAngleUpdate ts).axis_method = ts.axis_method ∧
    (axisSnapAngleUpdate ts).lock_axis = ts.lock_axis := by
  rw [axisSnapAngleUpdate]
  split
  · simp only []
    split <;> split <;> split <;> exact ⟨rfl, rfl, rfl⟩
  · simp only []
    split <;> split <;> split <;> split <;> exact ⟨rfl, rfl, rfl⟩

/-- The `snap_on_axis` dispatch of `detect_snapping_points` (snap.py lines
    473-501), returning the updated tool state together with
    `rot_intersection`, `axis_start`, `axis_end`.  Because
    `axisSnapAngleUpdate` only touches `snap_angle`, testing `plane_method`,
    `lock_axis` and `axis_method` after it matches the source.  `none`
    propagates the `snap_on_axis` `TypeError`. -/
def axisResolution (R : Rot) (env : SnapEnv) (intersection : Vec3) (ts : ToolState) :
    Option (ToolState × Option Vec3 × Option Vec3 × Option Vec3) :=
  let ts := axisSnapAngleUpdate ts
  if ts.plane_method = none then
    if ts.axis_method ≠ none then
      match snap_on_axis R env intersection ts with
      | none => none
      | some r => some (ts, r.1, r.2.2.1, r.2.2.2)
    else
      some (ts, none, none, none)
  else
    if ts.lock_axis = true ∨ ts.axis_method ≠ none then
      match snap_on_axis R env intersection ts with
      | none => none
      | some r => some (ts, r.1, r.2.2.1, r.2.2.2)
    else
      match snap_on_axis R env intersection ts with
      | none => none
      | some r => some ({ ts with snap_angle := r.2.1 }, r.1, r.2.2.1, r.2.2.2)

/-- `Snap.detect_snapping_points` (snap.py lines 254-518): the groups list in
    append order and the mutated tool state.  The `Axis` group is appended
    only when `rot_intersection` is not `None` and the polyline has committed
    points (line 503); the `Plane` group is appended unconditionally
    (lines 512-516).  `none` propagates a `snap_on_axis` `TypeError`. -/
def detect_snapping_points (R : Rot) (inps : DetectInputs) (ts : ToolState) :
    Option (List DetectedSnap × ToolState) :=
  let pn := select_plane_method inps ts
  let ts := { ts with plane_origin := pn.1 }
  let intersection := inps.ray_plane_cast pn.1 pn.2
  let env : SnapEnv := ⟨inps.polyline_points, inps.elevation⟩
  match axisResolution R env intersection ts with
  | none => none
  | some r =>
    let axisGroups :=
      match r.2.1, r.2.2.1, r.2.2.2 with
      | some ri, some s, some e =>
        if inps.polyline_points ≠ [] then [DetectedSnap.axis ri s e] else []
      | _, _, _ => []
    some (detectBase inps ++ axisGroups ++ [DetectedSnap.plane intersection], r.1)

/-! ## Numeric keyboard input (polyline.py lines 755-781)

The digit/backspace branch of `PolylineOperator.handle_keyboard_input`,
reached when `input_type` is active and the event is a number key, `=`, or a
`BACK_SPACE` release. -/

/-- The mutable operator fields touched by the branch. -/
structure NumericInput where
  number_input : List Char
  number_output : String
  mode : String
  is_typing : Bool
deriving DecidableEq

/-- The keystroke kinds the branch distinguishes. -/
inductive NumKey where
  | backspace
  | equalsKey
  | char (c : Char)
deriving DecidableEq

/-- The body of polyline.py lines 756-781 for one keystroke.  Note the
    `if not self.number_input: self.number_output = "0"` at lines 774-775 is
    dead: `self.number_output = "".join(self.number_input)` at line 779
    unconditionally overwrites it, so an emptied buffer displays `""`. -/
def handle_keyboard_input_number (s : NumericInput) (key : NumKey) : NumericInput :=
  let number_input :=
    if ¬(s.mode = "Edit") ∧ ¬(key = .equalsKey ∨ key = .backspace) then []
    else s.number_input
  let number_input :=
    match key with
    | .backspace => if number_input.length ≤ 1 then [] else number_input.dropLast
    | .equalsKey =>
      if number_input.head? = some (Char.ofNat 61) then number_input.tail
      else Char.ofNat 61 :: number_input
    | .char c => number_input ++ [c]
  let number_output := if number_input.isEmpty then "0" else s.number_output
  let number_output := String.mk number_input
  { number_input := number_input, number_output := number_output,
    mode := "Edit", is_typing := true }

/-! ## Helper lemmas -/

theorem lexStep_isSome (acc : Option (ℚ × ℚ)) (x : ℚ × ℚ) : (lexStep acc x).isSome := by
  cases acc with
  | none => simp [lexStep]
  | some m =>
    simp only [lexStep]
    split <;> simp

theorem lexMin_aux_isSome (l : List (ℚ × ℚ)) :
    ∀ acc : Option (ℚ × ℚ), acc.isSome → (l.foldl lexStep acc).isSome := by
  induction l with
  | nil => intro acc h; simpa using h
  | cons x xs ih =>
    intro acc _
    exact ih (lexStep acc x) (lexStep_isSome acc x)

theorem lexMin_isSome (l : List (ℚ × ℚ)) (h : l ≠ []) : ∃ m, lexMin l = some m := by
  cases l with
  | nil => exact absurd rfl h
  | cons x xs =>
    have h2 : (lexMin (x :: xs)).isSome := by
      have : lexMin (x :: xs) = xs.foldl lexStep (lexStep none x) := rfl
      rw [this]
      exact lexMin_aux_isSome xs (lexStep none x) (lexStep_isSome none x)
    exact Option.isSome_iff_exists.mp h2

theorem lexMin_aux_mem (l : List (ℚ × ℚ)) :
    ∀ (acc : Option (ℚ × ℚ)) (m : ℚ × ℚ), l.foldl lexStep acc = some m →
      acc = some m ∨ m ∈ l := by
  induction l with
  | nil => intro acc m h; exact Or.inl h
  | cons x xs ih =>
    intro acc m h
    rcases ih (lexStep acc x) m h with h2 | h2
    · cases acc with
      | none =>
        simp only [lexStep] at h2
        have hxm : x = m := by injection h2
        subst hxm
        exact Or.inr (List.mem_cons_self x xs)
      | some a =>
        simp only [lexStep] at h2
        split at h2
        · have hxm : x = m := by injection h2
          subst hxm
          exact Or.inr (List.mem_cons_self x xs)
        · have ham : a = m := by injection h2
          subst ham
          exact Or.inl rfl
    · exact Or.inr (List.mem_cons_of_mem x h2)

theorem lexMin_mem (l : List (ℚ × ℚ)) (m : ℚ × ℚ) (h : lexMin l = some m) : m ∈ l := by
  rcases lexMin_aux_mem l none m h with h2 | h2
  · exact absurd h2 (by simp)
  · exact h2

theorem lexMin_aux_min (l : List (ℚ × ℚ)) :
    ∀ (acc : Option (ℚ × ℚ)) (m : ℚ × ℚ), l.foldl lexStep acc = some m →
      (∀ a, acc = some a → m.1 ≤ a.1) ∧ (∀ q ∈ l, m.1 ≤ q.1) := by
  induction l with
  | nil =>
    intro acc m h
    simp only [List.foldl] at h
    constructor
    · intro a ha
      rw [ha] at h
      have : a = m := by injection h
      rw [this]
    · intro q hq
      exact absurd hq (by simp)
  | cons x xs ih =>
    intro acc m h
    rcases ih (lexStep acc x) m h with ⟨hacc, hxs⟩
    have hx : m.1 ≤ x.1 := by
      cases acc with
      | none => exact hacc x rfl
      | some a =>
        simp only [lexStep] at hacc
        by_cases hc : x.1 < a.1 ∨ (x.1 = a.1 ∧ x.2 ≤ a.2)
        · rw [if_pos hc] at hacc
          exact hacc x rfl
        · rw [if_neg hc] at hacc
          have ha : m.1 ≤ a.1 := hacc a rfl
          have h4 : a.1 ≤ x.1 := not_lt.mp (fun hlt => hc (Or.inl hlt))
          exact le_trans ha h4
    refine ⟨?_, ?_⟩
    · intro a ha
      subst ha
      simp only [lexStep] at hacc
      split at hacc
      · rename_i hc
        rcases hc with hc | hc
        · exact le_trans (hacc x rfl) (le_of_lt hc)
        · exact le_trans (hacc x rfl) (le_of_eq hc.1)
      · exact hacc a rfl
    · intro q hq
      rcases List.mem_cons.mp hq with hq | hq
      · subst hq; exact hx
      · exact hxs q hq

theorem lexMin_min (l : List (ℚ × ℚ)) (m : ℚ × ℚ) (h : lexMin l = some m) :
    ∀ q ∈ l, m.1 ≤ q.1 :=
  (lexMin_aux_min l none m h).2

theorem pySort_eq_nil_iff (l : List (Vec3 × String)) : pySort l = [] ↔ l = [] := by
  constructor
  · intro h
    have hp := pySort_perm l
    rw [h] at hp
    exact hp.symm.eq_nil
  · intro h
    subst h
    rfl

theorem mix_tag (sp : SnapPoint) (axis_start axis_end : Vec3) :
    ∀ p ∈ mix_snap_and_axis sp axis_start axis_end, p.2 = "Mix" := by
  intro p hp
  have h2 := (pySort_perm _).mem_iff.mp hp
  rcases List.mem_map.mp h2 with ⟨i, _, hi⟩
  rw [← hi]

theorem dot_basis_x (d : Vec3) : Vec3.dot d ⟨1, 0, 0⟩ = d.x := by
  simp [Vec3.dot]

theorem dot_basis_y (d : Vec3) : Vec3.dot d ⟨0, 1, 0⟩ = d.y := by
  simp [Vec3.dot]

theorem dot_basis_z (d : Vec3) : Vec3.dot d ⟨0, 0, 1⟩ = d.z := by
  simp [Vec3.dot]

theorem intersect_edge_plane_x (v1 v2 pc : Vec3) (h : (v2 - v1).x ≠ 0) :
    ∃ p, intersect_edge_plane v1 v2 pc ⟨1, 0, 0⟩ = some p := by
  simp only [intersect_edge_plane, dot_basis_x]
  rw [if_neg h]
  exact ⟨_, rfl⟩

theorem intersect_edge_plane_y (v1 v2 pc : Vec3) (h : (v2 - v1).y ≠ 0) :
    ∃ p, intersect_edge_plane v1 v2 pc ⟨0, 1, 0⟩ = some p := by
  simp only [intersect_edge_plane, dot_basis_y]
  rw [if_neg h]
  exact ⟨_, rfl⟩

theorem intersect_edge_plane_z (v1 v2 pc : Vec3) (h : (v2 - v1).z ≠ 0) :
    ∃ p, intersect_edge_plane v1 v2 pc ⟨0, 0, 1⟩ = some p := by
  simp only [intersect_edge_plane, dot_basis_z]
  rw [if_neg h]
  exact ⟨_, rfl⟩

theorem mix_ne_nil (sp : SnapPoint) (axis_start axis_end : Vec3)
    (h : axis_start ≠ axis_end) :
    mix_snap_and_axis sp axis_start axis_end ≠ [] := by
  intro hnil
  rw [mix_snap_and_axis] at hnil
  rw [pySort_eq_nil_iff] at hnil
  rw [List.map_eq_nil_iff] at hnil
  have hd : axis_end - axis_start ≠ Vec3.zero := by
    intro hz
    exact h ((Vec3.sub_eq_zero_iff axis_end axis_start).mp hz).symm
  rcases (Vec3.ne_zero_iff _).mp hd with hx | hy | hz
  · rcases intersect_edge_plane_x axis_start axis_end sp.1 hx with ⟨p, hp⟩
    have : some p ∈ ([intersect_edge_plane axis_start axis_end sp.1 ⟨1, 0, 0⟩,
        intersect_edge_plane axis_start axis_end sp.1 ⟨0, 1, 0⟩,
        intersect_edge_plane axis_start axis_end sp.1 ⟨0, 0, 1⟩] : List (Option Vec3)) := by
      rw [← hp]; exact List.mem_cons_self _ _
    have hmem : p ∈ ([intersect_edge_plane axis_start axis_end sp.1 ⟨1, 0, 0⟩,
        intersect_edge_plane axis_start axis_end sp.1 ⟨0, 1, 0⟩,
        intersect_edge_plane axis_start axis_end sp.1 ⟨0, 0, 1⟩] : List (Option Vec3)).filterMap id := by
      exact List.mem_filterMap.mpr ⟨some p, this, rfl⟩
    rw [hnil] at hmem
    exact absurd hmem (by simp)
  · rcases intersect_edge_plane_y axis_start axis_end sp.1 hy with ⟨p, hp⟩
    have : some p ∈ ([intersect_edge_plane axis_start axis_end sp.1 ⟨1, 0, 0⟩,
        intersect_edge_plane axis_start axis_end sp.1 ⟨0, 1, 0⟩,
        intersect_edge_plane axis_start axis_end sp.1 ⟨0, 0, 1⟩] : List (Option Vec3)) := by
      rw [← hp]; simp
    have hmem : p ∈ ([intersect_edge_plane axis_start axis_end sp.1 ⟨1, 0, 0⟩,
        intersect_edge_plane axis_start axis_end sp.1 ⟨0, 1, 0⟩,
        intersect_edge_plane axis_start axis_end sp.1 ⟨0, 0, 1⟩] : List (Option Vec3)).filterMap id := by
      exact List.mem_filterMap.mpr ⟨some p, this, rfl⟩
    rw [hnil] at hmem
    exact absurd hmem (by simp)
  · rcases intersect_edge_plane_z axis_start axis_end sp.1 hz with ⟨p, hp⟩
    have : some p ∈ ([intersect_edge_plane axis_start axis_end sp.1 ⟨1, 0, 0⟩,
        intersect_edge_plane axis_start axis_end sp.1 ⟨0, 1, 0⟩,
        intersect_edge_plane axis_start axis_end sp.1 ⟨0, 0, 1⟩] : List (Option Vec3)) := by
      rw [← hp]; simp
    have hmem : p ∈ ([intersect_edge_plane axis_start axis_end sp.1 ⟨1, 0, 0⟩,
        intersect_edge_plane axis_start axis_end sp.1 ⟨0, 1, 0⟩,
        intersect_edge_plane axis_start axis_end sp.1 ⟨0, 0, 1⟩] : List (Option Vec3)).filterMap id := by
      exact List.mem_filterMap.mpr ⟨some p, this, rfl⟩
    rw [hnil] at hmem
    exact absurd hmem (by simp)

theorem mem_axisPlanePoints_axis (pt s e : Vec3) (gs : List DetectedSnap)
    (h : DetectedSnap.axis pt s e ∈ gs) : (pt, "Axis", none) ∈ axisPlanePoints gs := by
  induction gs with
  | nil => exact absurd h (by simp)
  | cons g rest ih =>
    rcases List.mem_cons.mp h with h2 | h2
    · subst h2
      simp [axisPlanePoints]
    · cases g with
      | axis p2 s2 e2 => exact List.mem_cons_of_mem _ (ih h2)
      | plane p2 => exact List.mem_cons_of_mem _ (ih h2)
      | polyline pts => exact ih h2
      | measure pts => exact ih h2
      | edgeVertex o pts => exact ih h2
      | object p2 o fi => exact ih h2

theorem mem_axisPlanePoints_plane (pt : Vec3) (gs : List DetectedSnap)
    (h : DetectedSnap.plane pt ∈ gs) : (pt, "Plane", none) ∈ axisPlanePoints gs := by
  induction gs with
  | nil => exact absurd h (by simp)
  | cons g rest ih =>
    rcases List.mem_cons.mp h with h2 | h2
    · subst h2
      simp [axisPlanePoints]
    · cases g with
      | axis p2 s2 e2 => exact List.mem_cons_of_mem _ (ih h2)
      | plane p2 => exact List.mem_cons_of_mem _ (ih h2)
      | polyline pts => exact ih h2
      | measure pts => exact ih h2
      | edgeVertex o pts => exact ih h2
      | object p2 o fi => exact ih h2

theorem axisPlanePoints_src (gs : List DetectedSnap) :
    ∀ p ∈ axisPlanePoints gs,
      (p.2.1 = "Axis" ∧ ∃ s e, DetectedSnap.axis p.1 s e ∈ gs) ∨
      (p.2.1 = "Plane" ∧ DetectedSnap.plane p.1 ∈ gs) := by
  induction gs with
  | nil => intro p hp; exact absurd hp (by simp [axisPlanePoints])
  | cons g rest ih =>
    intro p hp
    cases g with
    | axis pt s e =>
      rcases List.mem_cons.mp hp with h2 | h2
      · subst h2
        exact Or.inl ⟨rfl, s, e, List.mem_cons_self _ _⟩
      · rcases ih p h2 with ⟨hk, s2, e2, hm⟩ | ⟨hk, hm⟩
        · exact Or.inl ⟨hk, s2, e2, List.mem_cons_of_mem _ hm⟩
        · exact Or.inr ⟨hk, List.mem_cons_of_mem _ hm⟩
    | plane pt =>
      rcases List.mem_cons.mp hp with h2 | h2
      · subst h2
        exact Or.inr ⟨rfl, List.mem_cons_self _ _⟩
      · rcases ih p h2 with ⟨hk, s2, e2, hm⟩ | ⟨hk, hm⟩
        · exact Or.inl ⟨hk, s2, e2, List.mem_cons_of_mem _ hm⟩
        · exact Or.inr ⟨hk, List.mem_cons_of_mem _ hm⟩
    | polyline pts =>
      rcases ih p hp with ⟨hk, s2, e2, hm⟩ | ⟨hk, hm⟩
      · exact Or.inl ⟨hk, s2, e2, List.mem_cons_of_mem _ hm⟩
      · exact Or.inr ⟨hk, List.mem_cons_of_mem _ hm⟩
    | measure pts =>
      rcases ih p hp with ⟨hk, s2, e2, hm⟩ | ⟨hk, hm⟩
      · exact Or.inl ⟨hk, s2, e2, List.mem_cons_of_mem _ hm⟩
      · exact Or.inr ⟨hk, List.mem_cons_of_mem _ hm⟩
    | edgeVertex o pts =>
      rcases ih p hp with ⟨hk, s2, e2, hm⟩ | ⟨hk, hm⟩
      · exact Or.inl ⟨hk, s2, e2, List.mem_cons_of_mem _ hm⟩
      · exact Or.inr ⟨hk, List.mem_cons_of_mem _ hm⟩
    | object pt o fi =>
      rcases ih p hp with ⟨hk, s2, e2, hm⟩ | ⟨hk, hm⟩
      · exact Or.inl ⟨hk, s2, e2, List.mem_cons_of_mem _ hm⟩
      · exact Or.inr ⟨hk, List.mem_cons_of_mem _ hm⟩

theorem lastAxisLine_isSome (pt s e : Vec3) (gs : List DetectedSnap)
    (h : DetectedSnap.axis pt s e ∈ gs) : ∃ se, lastAxisLine gs = some se := by
  induction gs with
  | nil => exact absurd h (by simp)
  | cons g rest ih =>
    cases g with
    | axis p2 s2 e2 =>
      simp only [lastAxisLine]
      cases h2 : lastAxisLine rest with
      | some r => exact ⟨r, rfl⟩
      | none => exact ⟨(s2, e2), rfl⟩
    | plane p2 =>
      rcases List.mem_cons.mp h with h2 | h2
      · cases h2
      · exact ih h2
    | polyline pts =>
      rcases List.mem_cons.mp h with h2 | h2
      · cases h2
      · exact ih h2
    | measure pts =>
      rcases List.mem_cons.mp h with h2 | h2
      · cases h2
      · exact ih h2
    | edgeVertex o pts =>
      rcases List.mem_cons.mp h with h2 | h2
      · cases h2
      · exact ih h2
    | object p2 o fi =>
      rcases List.mem_cons.mp h with h2 | h2
      · cases h2
      · exact ih h2

theorem lastAxisLine_mem (gs : List DetectedSnap) (s e : Vec3)
    (h : lastAxisLine gs = some (s, e)) : ∃ pt, DetectedSnap.axis pt s e ∈ gs := by
  induction gs with
  | nil => exact absurd h (by simp [lastAxisLine])
  | cons g rest ih =>
    cases g with
    | axis p2 s2 e2 =>
      simp only [lastAxisLine] at h
      cases h2 : lastAxisLine rest with
      | some r =>
        rw [h2] at h
        have hr : r = (s, e) := by injection h
        subst hr
        rcases ih h2 with ⟨pt, hm⟩
        exact ⟨pt, List.mem_cons_of_mem _ hm⟩
      | none =>
        rw [h2] at h
        have hr : (s2, e2) = (s, e) := by injection h
        have hs : s2 = s := congrArg Prod.fst hr
        have he : e2 = e := congrArg Prod.snd hr
        subst hs; subst he
        exact ⟨p2, List.mem_cons_self _ _⟩
    | plane p2 =>
      rcases ih h with ⟨pt, hm⟩
      exact ⟨pt, List.mem_cons_of_mem _ hm⟩
    | polyline pts =>
      rcases ih h with ⟨pt, hm⟩
      exact ⟨pt, List.mem_cons_of_mem _ hm⟩
    | measure pts =>
      rcases ih h with ⟨pt, hm⟩
      exact ⟨pt, List.mem_cons_of_mem _ hm⟩
    | edgeVertex o pts =>
      rcases ih h with ⟨pt, hm⟩
      exact ⟨pt, List.mem_cons_of_mem _ hm⟩
    | object p2 o fi =>
      rcases ih h with ⟨pt, hm⟩
      exact ⟨pt, List.mem_cons_of_mem _ hm⟩

theorem edgeIntStep_sub (acc : List SnapPoint) (pair : RayPoint × RayPoint) :
    ∀ x ∈ acc, x ∈ edgeIntStep acc pair := by
  intro x hx
  rw [edgeIntStep]
  split
  · split
    · split
      · exact List.mem_cons_of_mem _ hx
      · exact hx
    · exact hx
  · exact hx

theorem edgeIntStep_kind (acc : List SnapPoint) (pair : RayPoint × RayPoint)
    (hacc : ∀ p ∈ acc, p.2.1 = "Edge Intersection") :
    ∀ p ∈ edgeIntStep acc pair, p.2.1 = "Edge Intersection" := by
  intro p hp
  rw [edgeIntStep] at hp
  split at hp
  · split at hp
    · split at hp
      · rcases List.mem_cons.mp hp with h2 | h2
        · subst h2; rfl
        · exact hacc p h2
      · exact hacc p hp
    · exact hacc p hp
  · exact hacc p hp

theorem foldl_edgeIntStep_sub (pairs : List (RayPoint × RayPoint)) :
    ∀ (acc : List SnapPoint), ∀ x ∈ acc, x ∈ pairs.foldl edgeIntStep acc := by
  induction pairs with
  | nil => intro acc x hx; simpa using hx
  | cons p ps ih =>
    intro acc x hx
    exact ih (edgeIntStep acc p) x (edgeIntStep_sub acc p x hx)

theorem edge_intersection_points_kind (edges : List RayPoint) :
    ∀ p ∈ edge_intersection_points edges, p.2.1 = "Edge Intersection" := by
  rw [edge_intersection_points]
  generalize edges.zip (edges.drop 1 ++ edges.take 1) = pairs
  suffices h : ∀ (acc : List SnapPoint), (∀ p ∈ acc, p.2.1 = "Edge Intersection") →
      ∀ p ∈ pairs.foldl edgeIntStep acc, p.2.1 = "Edge Intersection" by
    exact h [] (by simp)
  induction pairs with
  | nil => intro acc hacc p hp; exact hacc p (by simpa using hp)
  | cons q qs ih =>
    intro acc hacc p hp
    exact ih (edgeIntStep acc q) (edgeIntStep_kind acc q hacc) p hp

theorem foldl_edgeIntStep_mem (pairs : List (RayPoint × RayPoint))
    (e1 e2 : RayPoint) (ev1 ev2 : Vec3 × Vec3) (i : Vec3)
    (hpair : (e1, e2) ∈ pairs)
    (hcoin : are_vectors_equal e1.point e2.point (1 / 10) = true)
    (hev1 : e1.edge_verts = some ev1) (hev2 : e2.edge_verts = some ev2)
    (hint : (intersect_edges_v2 ev1 ev2).2 = some i) :
    ∀ acc : List SnapPoint,
      (i, "Edge Intersection", (none : Option Obj)) ∈ pairs.foldl edgeIntStep acc := by
  induction pairs with
  | nil => exact absurd hpair (by simp)
  | cons q qs ih =>
    intro acc
    rcases List.mem_cons.mp hpair with h2 | h2
    · subst h2
      have hstep : (i, "Edge Intersection", (none : Option Obj)) ∈ edgeIntStep acc (e1, e2) := by
        rw [edgeIntStep]
        rw [if_pos hcoin]
        simp only [hev1, hev2, hint]
        exact List.mem_cons_self _ _
      exact foldl_edgeIntStep_sub qs (edgeIntStep acc (e1, e2)) _ hstep
    · exact ih h2 (edgeIntStep acc q)

theorem edge_intersection_points_mem (edges : List RayPoint)
    (e1 e2 : RayPoint) (ev1 ev2 : Vec3 × Vec3) (i : Vec3)
    (hpair : (e1, e2) ∈ edges.zip (edges.drop 1 ++ edges.take 1))
    (hcoin : are_vectors_equal e1.point e2.point (1 / 10) = true)
    (hev1 : e1.edge_verts = some ev1) (hev2 : e2.edge_verts = some ev2)
    (hint : (intersect_edges_v2 ev1 ev2).2 = some i) :
    (i, "Edge Intersection", (none : Option Obj)) ∈ edge_intersection_points edges := by
  rw [edge_intersection_points]
  exact foldl_edgeIntStep_mem _ e1 e2 ev1 ev2 i hpair hcoin hev1 hev2 hint []

/-- The ray-point types a detected group can feed into `snapping_points`:
    external `tool.Raycast` results never carry the reserved `"Axis"` type. -/
def groupTypesOK (prox : Obj → Nat → List RayPoint) : DetectedSnap → Prop
  | .polyline pts => ∀ rp ∈ pts, rp.type ≠ "Axis"
  | .measure pts => ∀ rp ∈ pts, rp.type ≠ "Axis"
  | .edgeVertex _ pts => ∀ rp ∈ pts, rp.type ≠ "Axis"
  | .object _ o fi => ∀ rp ∈ prox o fi, rp.type ≠ "Axis"
  | .axis _ _ _ => True
  | .plane _ => True

theorem collectPoints_no_axis_kind (prox : Obj → Nat → List RayPoint)
    (gs : List DetectedSnap) (hg : ∀ g ∈ gs, groupTypesOK prox g) :
    ∀ p ∈ (collectPoints prox gs).1, p.2.1 ≠ "Axis" := by
  induction gs with
  | nil => intro p hp; exact absurd hp (by simp [collectPoints])
  | cons g rest ih =>
    intro p hp
    have hghead := hg g (List.mem_cons_self _ _)
    have hgrest : ∀ g2 ∈ rest, groupTypesOK prox g2 :=
      fun g2 h2 => hg g2 (List.mem_cons_of_mem _ h2)
    cases g with
    | polyline pts =>
      simp only [collectPoints] at hp
      rcases List.mem_map.mp hp with ⟨rp, hrp, hrp2⟩
      rw [← hrp2]
      exact hghead rp hrp
    | measure pts =>
      simp only [collectPoints] at hp
      rcases List.mem_map.mp hp with ⟨rp, hrp, hrp2⟩
      rw [← hrp2]
      exact hghead rp hrp
    | edgeVertex o pts =>
      simp only [collectPoints] at hp
      rcases List.mem_append.mp hp with h2 | h2
      · rcases List.mem_map.mp h2 with ⟨rp, hrp, hrp2⟩
        rw [← hrp2]
        exact hghead rp hrp
      · exact ih hgrest p h2
    | object pt o fi =>
      simp only [collectPoints] at hp
      split at hp
      · rcases List.mem_singleton.mp hp with h2
        rw [h2]
        simp
      · rcases List.mem_map.mp hp with ⟨rp, hrp, hrp2⟩
        rw [← hrp2]
        exact hghead rp hrp
    | axis pt s e => exact ih hgrest p hp
    | plane pt => exact ih hgrest p hp

theorem assembled_axis_src (prox : Obj → Nat → List RayPoint) (s : SnapSettings)
    (detected : List DetectedSnap)
    (hg : ∀ g ∈ filter_snapping_groups_based_on_settings s detected, groupTypesOK prox g) :
    ∀ p ∈ assembledPoints prox s detected, p.2.1 = "Axis" →
      ∃ st en, DetectedSnap.axis p.1 st en ∈
        filter_snapping_groups_based_on_settings s detected := by
  intro p hp hk
  rw [assembledPoints] at hp
  rcases List.mem_append.mp hp with h2 | h2
  · exfalso
    have h3 : p ∈ edge_intersection_points
        (collectPoints prox (filter_snapping_groups_based_on_settings s detected)).2 := by
      by_cases h4 : (collectPoints prox (filter_snapping_groups_based_on_settings s detected)).2.isEmpty = true
      · rw [if_pos h4] at h2
        simp at h2
      · rw [if_neg h4] at h2
        exact h2
    have := edge_intersection_points_kind _ p h3
    rw [hk] at this
    exact absurd this (by decide)
  · rcases List.mem_append.mp h2 with h3 | h3
    · exact absurd hk (collectPoints_no_axis_kind prox _ hg p h3)
    · rcases axisPlanePoints_src _ p h3 with ⟨_, st, en, hm⟩ | ⟨hpk, _⟩
      · exact ⟨st, en, hm⟩
      · rw [hk] at hpk
        exact absurd hpk (by decide)

theorem group_filter_keeps_plane (s : SnapSettings) (detected : List DetectedSnap)
    (pt : Vec3) (h : DetectedSnap.plane pt ∈ detected) :
    DetectedSnap.plane pt ∈ filter_snapping_groups_based_on_settings s detected := by
  rw [filter_snapping_groups_based_on_settings]
  refine List.mem_filter.mpr ⟨h, ?_⟩
  simp [DetectedSnap.group]

theorem group_filter_keeps_axis (s : SnapSettings) (detected : List DetectedSnap)
    (pt st en : Vec3) (h : DetectedSnap.axis pt st en ∈ detected) :
    DetectedSnap.axis pt st en ∈ filter_snapping_groups_based_on_settings s detected := by
  rw [filter_snapping_groups_based_on_settings]
  refine List.mem_filter.mpr ⟨h, ?_⟩
  simp [DetectedSnap.group]

theorem point_filter_keeps (s : SnapSettings) (pts : List SnapPoint) (p : SnapPoint)
    (hp : p ∈ pts) (hk : p.2.1 = "Plane" ∨ p.2.1 = "Axis") :
    p ∈ filter_snapping_points_based_on_settings s pts := by
  rw [filter_snapping_points_based_on_settings]
  refine List.mem_filter.mpr ⟨hp, ?_⟩
  rcases hk with hk | hk <;> simp [hk]

theorem plane_point_in_filtered (prox : Obj → Nat → List RayPoint) (s : SnapSettings)
    (detected : List DetectedSnap) (pt : Vec3) (h : DetectedSnap.plane pt ∈ detected) :
    (pt, "Plane", (none : Option Obj)) ∈
      filter_snapping_points_based_on_settings s (assembledPoints prox s detected) := by
  apply point_filter_keeps _ _ _ ?_ (Or.inl rfl)
  rw [assembledPoints]
  apply List.mem_append.mpr
  right
  apply List.mem_append.mpr
  right
  exact mem_axisPlanePoints_plane pt _ (group_filter_keeps_plane s detected pt h)

theorem axis_point_in_filtered (prox : Obj → Nat → List RayPoint) (s : SnapSettings)
    (detected : List DetectedSnap) (pt st en : Vec3)
    (h : DetectedSnap.axis pt st en ∈ detected) :
    (pt, "Axis", (none : Option Obj)) ∈
      filter_snapping_points_based_on_settings s (assembledPoints prox s detected) := by
  apply point_filter_keeps _ _ _ ?_ (Or.inr rfl)
  rw [assembledPoints]
  apply List.mem_append.mpr
  right
  apply List.mem_append.mpr
  right
  exact mem_axisPlanePoints_axis pt st en _ (group_filter_keeps_axis s detected pt st en h)

instance : DecidableEq (Except SelectErr SelectResult) := fun a b =>
  match a, b with
  | .ok x, .ok y =>
    if h : x = y then isTrue (by rw [h])
    else isFalse (by intro hc; injection hc; contradiction)
  | .error x, .error y =>
    if h : x = y then isTrue (by rw [h])
    else isFalse (by intro hc; injection hc; contradiction)
  | .ok _, .error _ => isFalse (by intro hc; cases hc)
  | .error _, .ok _ => isFalse (by intro hc; cases hc)

/-! ## Claim theorems -/

/-- Claim C9: selection is deterministic over its inputs — two calls of
    `select_snapping_points` on the same detected candidates with the same
    tool state, settings and per-tick proximity raycast agree, in particular
    on the selected (first) candidate and the recorded snap point. -/
theorem C9_select_deterministic (prox : Obj → Nat → List RayPoint) (s : SnapSettings)
    (ts : ToolState) (detected : List DetectedSnap) (r1 r2 : Except SelectErr SelectResult)
    (h1 : select_snapping_points prox s ts detected = r1)
    (h2 : select_snapping_points prox s ts detected = r2) :
    r1 = r2 ∧ ∀ o1 o2, r1 = .ok o1 → r2 = .ok o2 →
      o1.points.head? = o2.points.head? ∧ o1.recorded = o2.recorded := by
  subst h1
  subst h2
  refine ⟨rfl, ?_⟩
  intro o1 o2 e1 e2
  rw [e1] at e2
  have : o1 = o2 := by injection e2
  subst this
  exact ⟨rfl, rfl⟩

/-- Witness for C9 at a concrete tick. -/
theorem C9_select_deterministic_witness :
    (Except.ok (⟨[(⟨2, 3, 0⟩, "Plane", none)], (⟨2, 3, 0⟩, "Plane", none), none⟩ : SelectResult)
        : Except SelectErr SelectResult) =
      .ok ⟨[(⟨2, 3, 0⟩, "Plane", none)], (⟨2, 3, 0⟩, "Plane", none), none⟩ ∧
    ∀ o1 o2,
      (Except.ok (⟨[(⟨2, 3, 0⟩, "Plane", none)], (⟨2, 3, 0⟩, "Plane", none), none⟩ : SelectResult)
          : Except SelectErr SelectResult) = .ok o1 →
      (Except.ok (⟨[(⟨2, 3, 0⟩, "Plane", none)], (⟨2, 3, 0⟩, "Plane", none), none⟩ : SelectResult)
          : Except SelectErr SelectResult) = .ok o2 →
      o1.points.head? = o2.points.head? ∧ o1.recorded = o2.recorded := by
  have h := C9_select_deterministic (fun _ _ => []) ⟨[], []⟩
    ⟨none, none, false, none, false, ⟨0, 0, 0⟩⟩ [DetectedSnap.plane ⟨2, 3, 0⟩]
    (.ok ⟨[(⟨2, 3, 0⟩, "Plane", none)], (⟨2, 3, 0⟩, "Plane", none), none⟩)
    (.ok ⟨[(⟨2, 3, 0⟩, "Plane", none)], (⟨2, 3, 0⟩, "Plane", none), none⟩)
    (by decide) (by decide)
  exact h

/-- Claim C8 (code bug): a Backspace always pops the last character of the
    numeric buffer, but on the emptied buffer the displayed output is `""`,
    not `"0"`: the `number_output = "0"` assignment in the source is dead,
    overwritten by joining the empty buffer. -/
theorem C8_backspace_behavior :
    (∀ s : NumericInput,
      (handle_keyboard_input_number s .backspace).number_input = s.number_input.dropLast) ∧
    (handle_keyboard_input_number ⟨['5'], "5", "Edit", true⟩ .backspace).number_input = [] ∧
    (handle_keyboard_input_number ⟨['5'], "5", "Edit", true⟩ .backspace).number_output = "" ∧
    ("" : String) ≠ "0" := by
  refine ⟨?_, by decide, by decide, by decide⟩
  intro s
  simp only [handle_keyboard_input_number]
  rcases s with ⟨ni, no, mode, typing⟩
  simp only
  rcases ni with _ | ⟨a, _ | ⟨b, t⟩⟩
  · simp
  · simp
  · simp

theorem detectBase_group (inps : DetectInputs) :
    ∀ g ∈ detectBase inps,
      g.group = "Polyline" ∨ g.group = "Measure" ∨ g.group = "Edge-Vertex"
        ∨ g.group = "Object" := by
  intro g hg
  rw [detectBase] at hg
  rcases List.mem_append.mp hg with h1 | h1
  · rcases List.mem_append.mp h1 with h2 | h2
    · rcases List.mem_append.mp h2 with h3 | h3
      · split at h3
        · rcases List.mem_singleton.mp h3 with h4
          rw [h4]
          exact Or.inl rfl
        · exact absurd h3 (by simp)
      · rcases List.mem_map.mp h3 with ⟨l, _, hl⟩
        rw [← hl]
        exact Or.inr (Or.inl rfl)
    · rcases List.mem_map.mp h2 with ⟨c, _, hc⟩
      rw [← hc]
      exact Or.inr (Or.inr (Or.inl rfl))
  · split at h1
    · rcases List.mem_filterMap.mp h1 with ⟨c, _, hc⟩
      rcases Option.map_eq_some'.mp hc with ⟨hf, _, hg2⟩
      rw [← hg2]
      exact Or.inr (Or.inr (Or.inr rfl))
    · split at h1
      · rcases List.mem_singleton.mp h1 with h4
        rw [h4]
        exact Or.inr (Or.inr (Or.inr rfl))
      · exact absurd h1 (by simp)

/-- Inversion for `axisResolution`: either no axis snap was produced, or the
    produced components come from a `snap_on_axis` call. -/
theorem axisResolution_src (R : Rot) (env : SnapEnv) (i : Vec3) (ts : ToolState)
    (r : ToolState × Option Vec3 × Option Vec3 × Option Vec3)
    (har : axisResolution R env i ts = some r) :
    (r.2.1 = none ∧ r.2.2.1 = none ∧ r.2.2.2 = none) ∨
    ∃ tsx r0, snap_on_axis R env i tsx = some r0 ∧
      r.2.1 = r0.1 ∧ r.2.2.1 = r0.2.2.1 ∧ r.2.2.2 = r0.2.2.2 := by
  rw [axisResolution] at har
  split at har
  · split at har
    · split at har
      · exact absurd har (by simp)
      · rename_i r0 hsnap
        injection har with h
        subst h
        exact Or.inr ⟨_, r0, hsnap, rfl, rfl, rfl⟩
    · injection har with h
      subst h
      exact Or.inl ⟨rfl, rfl, rfl⟩
  · split at har
    · split at har
      · exact absurd har (by simp)
      · rename_i r0 hsnap
        injection har with h
        subst h
        exact Or.inr ⟨_, r0, hsnap, rfl, rfl, rfl⟩
    · split at har
      · exact absurd har (by simp)
      · rename_i r0 hsnap
        injection har with h
        subst h
        exact Or.inr ⟨_, r0, hsnap, rfl, rfl, rfl⟩

/-- The reference line returned by `snap_on_axis` is nondegenerate whenever
    the supplied rotation action sends nonzero vectors to nonzero vectors, as
    any real rotation matrix does. -/
theorem snap_on_axis_line_ne (R : Rot) (env : SnapEnv) (i : Vec3) (ts : ToolState)
    (hR : ∀ piv ang v, v ≠ Vec3.zero → R.applyInv piv ang v ≠ Vec3.zero)
    (ri : Option Vec3) (ang : Option ℚ) (st en : Vec3)
    (h : snap_on_axis R env i ts = some (ri, ang, some st, some en)) : st ≠ en := by
  rw [snap_on_axis] at h
  split at h
  · split at h
    · exact absurd h (by simp)
    · rename_i angle hpick
      injection h with h2
      have hst : st = snapLastPoint env + Vec3.smul 1000
          (R.applyInv (pivotAxis ts) (360 - angle)
            (if ts.plane_method = some "YZ" ∨ (ts.plane_method = none ∧ ts.axis_method = some "Z")
             then ⟨0, 0, 1⟩ else ⟨1, 0, 0⟩)) := by
        have := congrArg (fun t => t.2.2.1) h2
        simp only [create_axis_line_data] at this
        injection this.symm
      have hen : en = snapLastPoint env - Vec3.smul 1000
          (R.applyInv (pivotAxis ts) (360 - angle)
            (if ts.plane_method = some "YZ" ∨ (ts.plane_method = none ∧ ts.axis_method = some "Z")
             then ⟨0, 0, 1⟩ else ⟨1, 0, 0⟩)) := by
        have := congrArg (fun t => t.2.2.2) h2
        simp only [create_axis_line_data] at this
        injection this.symm
      intro hc
      set rd := R.applyInv (pivotAxis ts) (360 - angle)
        (if ts.plane_method = some "YZ" ∨ (ts.plane_method = none ∧ ts.axis_method = some "Z")
         then ⟨0, 0, 1⟩ else ⟨1, 0, 0⟩) with hrd
      have hrdne : rd ≠ Vec3.zero := by
        apply hR
        split <;> simp [Vec3.zero]
      apply hrdne
      rw [hst, hen] at hc
      rcases rd with ⟨rx, ry, rz⟩
      rcases hlp : snapLastPoint env with ⟨lx, ly, lz⟩
      rw [hlp] at hc
      simp only [Vec3.add_def, Vec3.sub_def, Vec3.smul, Vec3.mk.injEq] at hc
      simp only [Vec3.zero, Vec3.mk.injEq]
      refine ⟨by linarith [hc.1], by linarith [hc.2.1], by linarith [hc.2.2]⟩
  · exact absurd h (by simp)

/-- Shape of a successful `detect_snapping_points` call: base groups, then an
    optional `Axis` group born from a `snap_on_axis` call and gated on a
    non-empty polyline, then the unconditional `Plane` group. -/
theorem detect_shape (R : Rot) (inps : DetectInputs) (ts : ToolState)
    (groups : List DetectedSnap) (ts2 : ToolState)
    (hdet : detect_snapping_points R inps ts = some (groups, ts2)) :
    ∃ axisGroups intersection,
      groups = detectBase inps ++ axisGroups ++ [DetectedSnap.plane intersection] ∧
      (axisGroups = [] ∨
        (inps.polyline_points ≠ [] ∧
          ∃ ri st en, axisGroups = [DetectedSnap.axis ri st en] ∧
            ∃ tsx r0, snap_on_axis R ⟨inps.polyline_points, inps.elevation⟩
                intersection tsx = some r0 ∧
              r0.1 = some ri ∧ r0.2.2.1 = some st ∧ r0.2.2.2 = some en)) := by
  rw [detect_snapping_points] at hdet
  split at hdet
  · exact absurd hdet (by simp)
  · rename_i r har
    injection hdet with h
    rw [Prod.mk.injEq] at h
    obtain ⟨hg, _⟩ := h
    rcases r with ⟨ta, riOpt, stOpt, enOpt⟩
    rcases axisResolution_src R _ _ _ _ har with ⟨h1, h2, h3⟩ | ⟨tsx, r0, hsnap, h1, h2, h3⟩
    · simp only at h1 h2 h3
      subst h1; subst h2; subst h3
      exact ⟨[], _, hg.symm, Or.inl rfl⟩
    · simp only at h1 h2 h3
      subst h1; subst h2; subst h3
      simp only at hg
      rcases hr1 : r0.1 with _ | ri <;>
        rcases hr2 : r0.2.2.1 with _ | st <;>
          rcases hr3 : r0.2.2.2 with _ | en <;>
            rw [hr1, hr2, hr3] at hg <;>
              simp only [] at hg
      case some.some.some =>
        by_cases hp : inps.polyline_points ≠ []
        · rw [if_pos hp] at hg
          exact ⟨[DetectedSnap.axis ri st en], _, hg.symm,
            Or.inr ⟨hp, ri, st, en, rfl, tsx, r0, hsnap, hr1, hr2, hr3⟩⟩
        · rw [if_neg hp] at hg
          exact ⟨[], _, hg.symm, Or.inl rfl⟩
      all_goals exact ⟨[], _, hg.symm, Or.inl rfl⟩

/-- Claim C10: with no committed polyline points, `detect_snapping_points`
    emits no `Axis` group, whatever the axis method or lock state. -/
theorem C10_no_axis_group_without_polyline (R : Rot) (inps : DetectInputs)
    (ts : ToolState) (groups : List DetectedSnap) (ts2 : ToolState)
    (hpoly : inps.polyline_points = [])
    (hdet : detect_snapping_points R inps ts = some (groups, ts2)) :
    ∀ g ∈ groups, g.group ≠ "Axis" := by
  rcases detect_shape R inps ts groups ts2 hdet with ⟨ag, i, hg, hax⟩
  have hag : ag = [] := by
    rcases hax with h | ⟨hp, _⟩
    · exact h
    · exact absurd hpoly hp
  subst hag
  subst hg
  intro g hgm
  rcases List.mem_append.mp hgm with h1 | h1
  · rcases List.mem_append.mp h1 with h2 | h2
    · rcases detectBase_group inps g h2 with h | h | h | h <;> (rw [h]; decide)
    · exact absurd h2 (by simp)
  · rcases List.mem_singleton.mp h1 with h2
    rw [h2]
    exact (by decide : ("Plane" : String) ≠ "Axis")

/-- Identity rotation action, a valid instantiation of the abstract
    `mathutils` rotation for concrete witnesses. -/
def idRot : Rot := ⟨fun _ _ v => v, fun _ _ v => v⟩

/-- An empty-scene tick: no polyline, no ray hits, view plane cast at the
    origin. -/
def emptyInputs : DetectInputs :=
  ⟨[], [], [], [], [], false, ⟨0, 0, 0⟩, fun _ _ => ⟨0, 0, 0⟩, ⟨0, 0, -1⟩, 0⟩

/-- A fresh tool state: nothing locked, no methods chosen. -/
def baseToolState : ToolState := ⟨none, none, false, none, false, ⟨0, 0, 0⟩⟩

/-- Witness for C10: an explicit axis method held with an empty polyline
    still yields only the `Plane` group. -/
theorem C10_no_axis_group_without_polyline_witness :
    detect_snapping_points idRot emptyInputs { baseToolState with axis_method := some "X" }
      = some ([DetectedSnap.plane ⟨0, 0, 0⟩],
          ⟨some "X", none, false, some 180, false, ⟨0, 0, 0⟩⟩) ∧
    ∀ g ∈ [DetectedSnap.plane ⟨0, 0, 0⟩], g.group ≠ "Axis" := by
  refine ⟨by with_unfolding_all decide, ?_⟩
  intro g hg
  exact C10_no_axis_group_without_polyline idRot emptyInputs
    { baseToolState with axis_method := some "X" } [DetectedSnap.plane ⟨0, 0, 0⟩]
    ⟨some "X", none, false, some 180, false, ⟨0, 0, 0⟩⟩ rfl
    (by with_unfolding_all decide) g hg

/-- Claim C4: `snap_on_axis` considers the twelve 30-degree directions when
    the axis is not locked and exactly `tool_state.snap_angle` when locked; a
    nonzero angle is eligible iff its absolute perpendicular deviation is at
    most the stickiness threshold `0.15`; among eligible angles one of minimal
    deviation is chosen; with no eligible angle and no lock the function
    returns all `None`. -/
theorem C4_snap_on_axis (R : Rot) (env : SnapEnv) (intersection : Vec3)
    (ts : ToolState) :
    (ts.lock_axis = false → snapAxisAngles ts =
      [some 30, some 60, some 90, some 120, some 150, some 180, some 210,
       some 240, some 270, some 300, some 330, some 360]) ∧
    (ts.lock_axis = true → snapAxisAngles ts = [ts.snap_angle]) ∧
    (∀ a : ℚ, some a ∈ snapAxisAngles ts → a ≠ 0 →
      ((|axisProximity R ts (intersection - snapLastPoint env) a|, a) ∈
          elegibleAxes R ts (intersection - snapLastPoint env) ↔
        |axisProximity R ts (intersection - snapLastPoint env) a| ≤ 15 / 100)) ∧
    (elegibleAxes R ts (intersection - snapLastPoint env) ≠ [] →
      ∃ m, lexMin (elegibleAxes R ts (intersection - snapLastPoint env)) = some m ∧
        m ∈ elegibleAxes R ts (intersection - snapLastPoint env) ∧
        (∀ q ∈ elegibleAxes R ts (intersection - snapLastPoint env), m.1 ≤ q.1) ∧
        ∃ v st en, snap_on_axis R env intersection ts
          = some (some v, some m.2, some st, some en)) ∧
    (elegibleAxes R ts (intersection - snapLastPoint env) = [] → ts.lock_axis = false →
      snap_on_axis R env intersection ts = some (none, none, none, none)) := by
  refine ⟨?_, ?_, ?_, ?_, ?_⟩
  · intro h
    rw [snapAxisAngles, h]
    simp only [Bool.not_false, if_true]
    with_unfolding_all decide
  · intro h
    rw [snapAxisAngles, h]
    simp
  · intro a ha hnz
    constructor
    · intro hmem
      rw [elegibleAxes] at hmem
      rcases List.mem_filterMap.mp hmem with ⟨b, _, hb⟩
      rcases b with _ | angle
      · exact absurd hb (by simp)
      · simp only at hb
        split at hb
        · exact absurd hb (by simp)
        · split at hb
          · rename_i hle
            injection hb with hb2
            have ha2 : angle = a := congrArg Prod.snd hb2
            subst ha2
            have hp : |axisProximity R ts (intersection - snapLastPoint env) angle|
                = (|axisProximity R ts (intersection - snapLastPoint env) angle|, angle).1 := rfl
            rw [hp, hb2]
            exact hle
          · exact absurd hb (by simp)
    · intro hle
      rw [elegibleAxes]
      apply List.mem_filterMap.mpr
      refine ⟨some a, ha, ?_⟩
      simp only
      rw [if_neg hnz, if_pos hle]
  · intro hne
    obtain ⟨m, hm⟩ := lexMin_isSome _ hne
    refine ⟨m, hm, lexMin_mem _ _ hm, lexMin_min _ _ hm, ?_⟩
    rw [snap_on_axis]
    have hcond : (!(elegibleAxes R ts (intersection - snapLastPoint env)).isEmpty
        || ts.lock_axis) = true := by
      cases h2 : (elegibleAxes R ts (intersection - snapLastPoint env)).isEmpty
      · simp
      · exact absurd (List.isEmpty_iff.mp h2) hne
    simp only [hm, hcond, if_true]
    exact ⟨_, _, _, rfl⟩
  · intro h1 h2
    rw [snap_on_axis]
    simp [h1, h2]

/-- Claim C7: `mix_snap_and_axis` returns exactly the existing intersections
    of the axis line with the three axis-aligned planes through the snap
    point, each tagged `"Mix"`, ordered by (squared) length so the shortest
    comes first. -/
theorem C7_mix_snap_and_axis (sp : SnapPoint) (axis_start axis_end : Vec3) :
    List.Perm (mix_snap_and_axis sp axis_start axis_end)
      (([intersect_edge_plane axis_start axis_end sp.1 ⟨1, 0, 0⟩,
         intersect_edge_plane axis_start axis_end sp.1 ⟨0, 1, 0⟩,
         intersect_edge_plane axis_start axis_end sp.1 ⟨0, 0, 1⟩].filterMap id).map
        (fun i => (i, "Mix"))) ∧
    (mix_snap_and_axis sp axis_start axis_end).Pairwise
      (fun a b => Vec3.lenSq a.1 ≤ Vec3.lenSq b.1) ∧
    (∀ p ∈ mix_snap_and_axis sp axis_start axis_end, p.2 = "Mix") ∧
    (∀ m0 rest, mix_snap_and_axis sp axis_start axis_end = m0 :: rest →
      ∀ p ∈ rest, Vec3.lenSq m0.1 ≤ Vec3.lenSq p.1) := by
  refine ⟨?_, ?_, mix_tag sp axis_start axis_end, ?_⟩
  · rw [mix_snap_and_axis]
    exact pySort_perm _
  · rw [mix_snap_and_axis]
    exact pySort_sorted _
  · intro m0 rest h p hp
    have hs : (mix_snap_and_axis sp axis_start axis_end).Pairwise
        (fun a b => Vec3.lenSq a.1 ≤ Vec3.lenSq b.1) := by
      rw [mix_snap_and_axis]
      exact pySort_sorted _
    rw [h] at hs
    exact (List.pairwise_cons.mp hs).1 p hp

/-- Claim C1: with the axis locked or an explicit axis method held, whenever
    an `Axis` candidate was detected the snap point recorded by
    `select_snapping_points` is the axis point or a synthesized `Mix` point,
    never a raw object hit. -/
theorem C1_axis_priority (prox : Obj → Nat → List RayPoint) (s : SnapSettings)
    (ts : ToolState) (detected : List DetectedSnap) (out : SelectResult)
    (hlock : ts.lock_axis = true ∨ ts.axis_method = some "X"
      ∨ ts.axis_method = some "Y" ∨ ts.axis_method = some "Z")
    (hax : ∃ pt st en, DetectedSnap.axis pt st en ∈ detected)
    (hobj : ∃ pt o fi, DetectedSnap.object pt o fi ∈ detected)
    (hok : select_snapping_points prox s ts detected = .ok out) :
    out.recorded.2.1 = "Axis" ∨ out.recorded.2.1 = "Mix" := by
  obtain ⟨pt, st, en, haxm⟩ := hax
  have haxpt : (pt, "Axis", (none : Option Obj)) ∈
      filter_snapping_points_based_on_settings s (assembledPoints prox s detected) :=
    axis_point_in_filtered prox s detected pt st en haxm
  rw [select_snapping_points] at hok
  simp only [] at hok
  rw [if_pos hlock] at hok
  cases hflt : filter_snapping_points_based_on_settings s (assembledPoints prox s detected) with
  | nil =>
    rw [hflt] at haxpt
    exact absurd haxpt (by simp)
  | cons p0 rest =>
    rw [hflt] at hok haxpt
    simp only [] at hok
    cases hfind : (p0 :: rest).find? (fun p => p.2.1 = "Axis") with
    | none =>
      have h2 := List.find?_eq_none.mp hfind _ haxpt
      exact absurd h2 (by simp)
    | some axPoint =>
      rw [hfind] at hok
      simp only [] at hok
      have haxk : axPoint.2.1 = "Axis" := by
        have := List.find?_some hfind
        exact of_decide_eq_true this
      by_cases hp0 : p0.2.1 = "Axis" ∨ p0.2.1 = "Plane"
      · rw [if_pos hp0] at hok
        injection hok with h
        rw [← h]
        exact Or.inl haxk
      · rw [if_neg hp0] at hok
        cases hline : lastAxisLine (filter_snapping_groups_based_on_settings s detected) with
        | none =>
          rw [hline] at hok
          simp only [] at hok
          cases hok
        | some line =>
          rw [hline] at hok
          simp only [] at hok
          cases hmix : mix_snap_and_axis p0 line.1 line.2 with
          | nil =>
            rw [hmix] at hok
            simp only [] at hok
            cases hok
          | cons m0 mrest =>
            rw [hmix] at hok
            simp only [] at hok
            injection hok with h
            rw [← h]
            have hm : m0.2 = "Mix" := by
              apply mix_tag p0 line.1 line.2
              rw [hmix]
              exact List.mem_cons_self _ _
            exact Or.inr hm

/-- Inputs for the C1 witness tick. -/
def c1set : SnapSettings := ⟨["Vertex", "Face"], ["Object"]⟩

def c1ts : ToolState := ⟨none, none, true, none, false, ⟨0, 0, 0⟩⟩

def c1detected : List DetectedSnap :=
  [DetectedSnap.edgeVertex "col" [⟨"Vertex", ⟨3, 5, 0⟩, none⟩],
   DetectedSnap.object ⟨4, 4, 0⟩ "slab" 0,
   DetectedSnap.axis ⟨9, 9, 0⟩ ⟨1000, 1000, 0⟩ ⟨-1000, -1000, 0⟩,
   DetectedSnap.plane ⟨7, 7, 0⟩]

/-- Witness for C1: a locked tick with Vertex, Face (object), Axis and Plane
    candidates records a `Mix` point. -/
theorem C1_axis_priority_witness :
    ∃ out, select_snapping_points (fun _ _ => []) c1set c1ts c1detected = .ok out ∧
      (out.recorded.2.1 = "Axis" ∨ out.recorded.2.1 = "Mix") := by
  have hsel : select_snapping_points (fun _ _ => []) c1set c1ts c1detected =
      .ok ⟨[(⟨5, 5, 0⟩, "Mix", none), (⟨3, 3, 0⟩, "Mix", none),
            (⟨3, 5, 0⟩, "Vertex", some "col"), (⟨4, 4, 0⟩, "Face", some "slab"),
            (⟨9, 9, 0⟩, "Axis", none), (⟨7, 7, 0⟩, "Plane", none)],
           (⟨3, 3, 0⟩, "Mix", none), some (⟨3, 5, 0⟩, "Vertex")⟩ := by
    with_unfolding_all decide
  refine ⟨_, hsel, ?_⟩
  refine C1_axis_priority (fun _ _ => []) c1set c1ts c1detected _ (Or.inl rfl)
    ?_ ?_ hsel
  · exact ⟨⟨9, 9, 0⟩, ⟨1000, 1000, 0⟩, ⟨-1000, -1000, 0⟩, by decide⟩
  · exact ⟨⟨4, 4, 0⟩, "slab", 0, by decide⟩

/-- Inputs and expected outcome for the C3 failing tick. -/
def c3detected : List DetectedSnap :=
  [DetectedSnap.edgeVertex "col" [⟨"Vertex", ⟨3, 5, 0⟩, none⟩],
   DetectedSnap.axis ⟨9, 9, 0⟩ ⟨1000, 1000, 0⟩ ⟨-1000, -1000, 0⟩,
   DetectedSnap.plane ⟨7, 7, 0⟩]

def c3result : SelectResult :=
  ⟨[(⟨5, 5, 0⟩, "Mix", none), (⟨3, 3, 0⟩, "Mix", none),
    (⟨3, 5, 0⟩, "Vertex", some "col"), (⟨9, 9, 0⟩, "Axis", none),
    (⟨7, 7, 0⟩, "Plane", none)],
   (⟨3, 3, 0⟩, "Mix", none), some (⟨3, 5, 0⟩, "Vertex")⟩

/-- Claim C3 (code bug): on a locked tick whose first filtered candidate is a
    raw Vertex, the recorded snap point is the shortest `Mix` point while the
    head of the returned list is the farthest one — the `insert(0, ...)` loop
    at snap.py lines 605-606 reverses the freshly sorted `mixed_snap` before
    `update_snapping_point(mixed_snap[0])` records its first element. -/
theorem C3_recorded_not_head :
    select_snapping_points (fun _ _ => []) ⟨["Vertex"], []⟩
      ⟨none, none, true, none, false, ⟨0, 0, 0⟩⟩ c3detected = .ok c3result ∧
    c3result.points.head? = some (⟨5, 5, 0⟩, "Mix", none) ∧
    c3result.recorded = (⟨3, 3, 0⟩, "Mix", none) ∧
    c3result.recorded.1 ≠ (⟨5, 5, 0⟩ : Vec3) := by
  refine ⟨by with_unfolding_all decide, by decide, by decide, by decide⟩

/-- Inputs and outcome for the C5 counterexample tick. -/
def c5detected : List DetectedSnap :=
  [DetectedSnap.polyline [⟨"Vertex", ⟨1, 1, 0⟩, none⟩], DetectedSnap.plane ⟨2, 3, 0⟩]

def c5result : SelectResult :=
  ⟨[(⟨1, 1, 0⟩, "Vertex", none), (⟨2, 3, 0⟩, "Plane", none)],
   (⟨1, 1, 0⟩, "Vertex", none), none⟩

/-- Counterexample to C5 as stated: with a Polyline group present (and
    enabled), the returned candidate list still contains the Plane-group
    candidate, so the Polyline candidates are not returned alone. -/
theorem C5_counterexample :
    DetectedSnap.polyline [⟨"Vertex", ⟨1, 1, 0⟩, none⟩] ∈ c5detected ∧
    select_snapping_points (fun _ _ => []) ⟨["Vertex"], ["Polyline"]⟩ baseToolState
      c5detected = .ok c5result ∧
    (⟨2, 3, 0⟩, "Plane", (none : Option Obj)) ∈ c5result.points ∧
    (∀ rp ∈ [(⟨"Vertex", ⟨1, 1, 0⟩, none⟩ : RayPoint)],
      (rp.point, rp.type, (none : Option Obj)) ≠ (⟨2, 3, 0⟩, "Plane", none)) := by
  refine ⟨by decide, by with_unfolding_all decide, by decide, by decide⟩

/-- Every candidate returned by `select_snapping_points` is either one of the
    settings-filtered assembled candidates or a synthesized `Mix` point. -/
theorem select_output_src (prox : Obj → Nat → List RayPoint) (s : SnapSettings)
    (ts : ToolState) (detected : List DetectedSnap) (out : SelectResult)
    (hok : select_snapping_points prox s ts detected = .ok out) :
    ∀ c ∈ out.points,
      c ∈ filter_snapping_points_based_on_settings s (assembledPoints prox s detected) ∨
      c.2.1 = "Mix" := by
  rw [select_snapping_points] at hok
  simp only [] at hok
  split at hok
  · cases hflt : filter_snapping_points_based_on_settings s
        (assembledPoints prox s detected) with
    | nil =>
      rw [hflt] at hok
      simp only [] at hok
      cases hok
    | cons p0 rest2 =>
      rw [hflt] at hok
      simp only [] at hok
      cases hfind : (p0 :: rest2).find? (fun p => p.2.1 = "Axis") with
      | none =>
        rw [hfind] at hok
        simp only [] at hok
        injection hok with h
        rw [← h]
        simp only []
        intro c hc
        left
        exact hc
      | some axPoint =>
        rw [hfind] at hok
        simp only [] at hok
        split at hok
        · injection hok with h
          rw [← h]
          simp only []
          intro c hc
          left
          exact hc
        · cases hline : lastAxisLine (filter_snapping_groups_based_on_settings s detected) with
          | none =>
            rw [hline] at hok
            simp only [] at hok
            cases hok
          | some line =>
            rw [hline] at hok
            simp only [] at hok
            cases hmix : mix_snap_and_axis p0 line.1 line.2 with
            | nil =>
              rw [hmix] at hok
              simp only [] at hok
              cases hok
            | cons m0 mrest =>
              rw [hmix] at hok
              simp only [] at hok
              injection hok with h
              rw [← h]
              simp only []
              intro c hc
              rcases List.mem_append.mp hc with h2 | h2
              · rcases List.mem_map.mp h2 with ⟨m, hm, hm2⟩
                right
                have hmem : m ∈ mix_snap_and_axis p0 line.1 line.2 := by
                  rw [hmix]
                  exact List.mem_reverse.mp hm
                rw [← hm2]
                exact mix_tag p0 line.1 line.2 m hmem
              · left
                exact h2
  · cases hflt : filter_snapping_points_based_on_settings s
        (assembledPoints prox s detected) with
    | nil =>
      rw [hflt] at hok
      simp only [] at hok
      cases hok
    | cons p0 rest2 =>
      rw [hflt] at hok
      simp only [] at hok
      injection hok with h
      rw [← h]
      simp only []
      intro c hc
      left
      exact hc

/-- Claim C5 as amended: a leading Polyline or Measure group short-circuits
    the Edge-Vertex and Object groups in selection — every returned candidate
    is one of that group's own points or an `Axis`/`Plane`/synthesized `Mix`
    candidate, and for a Measure group possibly an `Edge Intersection`
    candidate synthesized from its own coinciding edges. -/
theorem C5_polyline_short_circuit (prox : Obj → Nat → List RayPoint)
    (s : SnapSettings) (ts : ToolState) (g : DetectedSnap) (pts : List RayPoint)
    (rest : List DetectedSnap) (out : SelectResult)
    (hgrp : g.group ∈ s.groupProps)
    (hok : select_snapping_points prox s ts (g :: rest) = .ok out) :
    (g = DetectedSnap.polyline pts → ∀ c ∈ out.points,
      (∃ rp ∈ pts, c = (rp.point, rp.type, none)) ∨
      c.2.1 = "Axis" ∨ c.2.1 = "Plane" ∨ c.2.1 = "Mix") ∧
    (g = DetectedSnap.measure pts → ∀ c ∈ out.points,
      (∃ rp ∈ pts, c = (rp.point, rp.type, none)) ∨
      c.2.1 = "Axis" ∨ c.2.1 = "Plane" ∨ c.2.1 = "Mix" ∨
      c.2.1 = "Edge Intersection") := by
  have hfs : filter_snapping_groups_based_on_settings s (g :: rest)
      = g :: filter_snapping_groups_based_on_settings s rest := by
    rw [filter_snapping_groups_based_on_settings, List.filter_cons]
    rw [if_pos (by simp [hgrp])]
    rfl
  constructor
  · intro hgdef c hc
    subst hgdef
    rcases select_output_src prox s ts _ out hok c hc with hmem | hmix
    · have hc2 : c ∈ assembledPoints prox s (DetectedSnap.polyline pts :: rest) :=
        (List.mem_filter.mp hmem).1
      rw [assembledPoints, hfs] at hc2
      simp only [collectPoints] at hc2
      simp only [List.isEmpty_nil, if_true, List.nil_append] at hc2
      rcases List.mem_append.mp hc2 with h2 | h2
      · rcases List.mem_map.mp h2 with ⟨rp, hrp, hrp2⟩
        exact Or.inl ⟨rp, hrp, hrp2.symm⟩
      · rcases axisPlanePoints_src _ c h2 with ⟨hk, _⟩ | ⟨hk, _⟩
        · exact Or.inr (Or.inl hk)
        · exact Or.inr (Or.inr (Or.inl hk))
    · exact Or.inr (Or.inr (Or.inr hmix))
  · intro hgdef c hc
    subst hgdef
    rcases select_output_src prox s ts _ out hok c hc with hmem | hmix
    · have hc2 : c ∈ assembledPoints prox s (DetectedSnap.measure pts :: rest) :=
        (List.mem_filter.mp hmem).1
      rw [assembledPoints, hfs] at hc2
      simp only [collectPoints] at hc2
      rcases List.mem_append.mp hc2 with h2 | h2
      · have h3 : c ∈ edge_intersection_points (pts.filter (fun p => p.type = "Edge")) := by
          by_cases hemp : (pts.filter (fun p => p.type = "Edge")).isEmpty = true
          · rw [if_pos hemp] at h2
            exact absurd h2 (by simp)
          · rw [if_neg hemp] at h2
            exact h2
        exact Or.inr (Or.inr (Or.inr (Or.inr (edge_intersection_points_kind _ c h3))))
      · rcases List.mem_append.mp h2 with h3 | h3
        · rcases List.mem_map.mp h3 with ⟨rp, hrp, hrp2⟩
          exact Or.inl ⟨rp, hrp, hrp2.symm⟩
        · rcases axisPlanePoints_src _ c h3 with ⟨hk, _⟩ | ⟨hk, _⟩
          · exact Or.inr (Or.inl hk)
          · exact Or.inr (Or.inr (Or.inl hk))
    · exact Or.inr (Or.inr (Or.inr (Or.inl hmix)))

/-- Measurement-path inputs and outcome for the Measure half of the C5
    witness: two coinciding adjacent measure edges synthesize leading
    `Edge Intersection` candidates. -/
def c5mMeasure : List RayPoint :=
  [⟨"Edge", ⟨0, 0, 0⟩, some (⟨-1, 0, 0⟩, ⟨1, 0, 0⟩)⟩,
   ⟨"Edge", ⟨0, 0, 0⟩, some (⟨0, -1, 0⟩, ⟨0, 1, 0⟩)⟩]

def c5mdetected : List DetectedSnap :=
  [DetectedSnap.measure c5mMeasure, DetectedSnap.plane ⟨2, 3, 0⟩]

def c5mresult : SelectResult :=
  ⟨[(⟨0, 0, 0⟩, "Edge Intersection", none), (⟨0, 0, 0⟩, "Edge Intersection", none),
    (⟨0, 0, 0⟩, "Edge", none), (⟨0, 0, 0⟩, "Edge", none), (⟨2, 3, 0⟩, "Plane", none)],
   (⟨0, 0, 0⟩, "Edge Intersection", none), none⟩

/-- Witness for the amended C5, exercising both halves: the Polyline tick of
    the counterexample and a Measure tick whose coinciding edges synthesize
    `Edge Intersection` candidates. -/
theorem C5_polyline_short_circuit_witness :
    (∀ c ∈ c5result.points,
      (∃ rp ∈ [(⟨"Vertex", ⟨1, 1, 0⟩, none⟩ : RayPoint)], c = (rp.point, rp.type, none)) ∨
      c.2.1 = "Axis" ∨ c.2.1 = "Plane" ∨ c.2.1 = "Mix") ∧
    (∀ c ∈ c5mresult.points,
      (∃ rp ∈ c5mMeasure, c = (rp.point, rp.type, none)) ∨
      c.2.1 = "Axis" ∨ c.2.1 = "Plane" ∨ c.2.1 = "Mix" ∨
      c.2.1 = "Edge Intersection") := by
  constructor
  · intro c hc
    exact (C5_polyline_short_circuit (fun _ _ => []) ⟨["Vertex"], ["Polyline"]⟩
      baseToolState (DetectedSnap.polyline [⟨"Vertex", ⟨1, 1, 0⟩, none⟩])
      [⟨"Vertex", ⟨1, 1, 0⟩, none⟩] [DetectedSnap.plane ⟨2, 3, 0⟩] c5result
      (by decide) (by with_unfolding_all decide)).1 rfl c hc
  · intro c hc
    exact (C5_polyline_short_circuit (fun _ _ => [])
      ⟨["Edge", "Edge Intersection"], ["Measure"]⟩
      baseToolState (DetectedSnap.measure c5mMeasure)
      c5mMeasure [DetectedSnap.plane ⟨2, 3, 0⟩] c5mresult
      (by decide) (by with_unfolding_all decide)).2 rfl c hc

/-- The four edge candidates of the C6 counterexample: the first and third
    coincide (both at the origin) but are not cyclically adjacent. -/
def c6edges : List RayPoint :=
  [⟨"Edge", ⟨0, 0, 0⟩, some (⟨-1, 0, 0⟩, ⟨1, 0, 0⟩)⟩,
   ⟨"Edge", ⟨10, 0, 0⟩, some (⟨10, -1, 0⟩, ⟨10, 1, 0⟩)⟩,
   ⟨"Edge", ⟨0, 0, 0⟩, some (⟨0, -1, 0⟩, ⟨0, 1, 0⟩)⟩,
   ⟨"Edge", ⟨20, 0, 0⟩, some (⟨20, -1, 0⟩, ⟨20, 1, 0⟩)⟩]

def c6detected : List DetectedSnap :=
  [DetectedSnap.edgeVertex "wall" c6edges, DetectedSnap.plane ⟨50, 50, 0⟩]

def c6result : SelectResult :=
  ⟨[(⟨0, 0, 0⟩, "Edge", some "wall"), (⟨10, 0, 0⟩, "Edge", some "wall"),
    (⟨0, 0, 0⟩, "Edge", some "wall"), (⟨20, 0, 0⟩, "Edge", some "wall"),
    (⟨50, 50, 0⟩, "Plane", none)],
   (⟨0, 0, 0⟩, "Edge", some "wall"), none⟩

/-- Counterexample to C6 as stated: two edge candidates coincide within
    tolerance and their edges intersect, yet no `Edge Intersection` candidate
    is synthesized, because the pair is not cyclically adjacent in the
    collected edge list. -/
theorem C6_counterexample :
    are_vectors_equal (⟨0, 0, 0⟩ : Vec3) ⟨0, 0, 0⟩ (1 / 10) = true ∧
    (⟨"Edge", ⟨0, 0, 0⟩, some (⟨-1, 0, 0⟩, ⟨1, 0, 0⟩)⟩ : RayPoint) ∈ c6edges ∧
    (⟨"Edge", ⟨0, 0, 0⟩, some (⟨0, -1, 0⟩, ⟨0, 1, 0⟩)⟩ : RayPoint) ∈ c6edges ∧
    (intersect_edges_v2 (⟨-1, 0, 0⟩, ⟨1, 0, 0⟩) (⟨0, -1, 0⟩, ⟨0, 1, 0⟩)).2
      = some ⟨0, 0, 0⟩ ∧
    select_snapping_points (fun _ _ => []) ⟨["Edge", "Edge Intersection"], []⟩
      baseToolState c6detected = .ok c6result ∧
    (∀ p ∈ c6result.points, p.2.1 ≠ "Edge Intersection") := by
  refine ⟨by with_unfolding_all decide, by decide, by decide,
    by with_unfolding_all decide, by with_unfolding_all decide, by decide⟩

/-- Claim C6 as amended: an `Edge Intersection` candidate is synthesized for
    every coinciding *cyclically adjacent* pair of collected edge candidates
    whose edges intersect, and the synthesized block is placed in front of all
    detected candidates. -/
theorem C6_adjacent_edge_intersection (prox : Obj → Nat → List RayPoint)
    (s : SnapSettings) (detected : List DetectedSnap) (e1 e2 : RayPoint)
    (ev1 ev2 : Vec3 × Vec3) (i : Vec3) (edges : List RayPoint)
    (hedges : edges =
      (collectPoints prox (filter_snapping_groups_based_on_settings s detected)).2)
    (hpair : (e1, e2) ∈ edges.zip (edges.drop 1 ++ edges.take 1))
    (hcoin : are_vectors_equal e1.point e2.point (1 / 10) = true)
    (hev1 : e1.edge_verts = some ev1) (hev2 : e2.edge_verts = some ev2)
    (hint : (intersect_edges_v2 ev1 ev2).2 = some i) :
    (i, "Edge Intersection", (none : Option Obj)) ∈ edge_intersection_points edges ∧
    assembledPoints prox s detected =
      edge_intersection_points edges ++
        ((collectPoints prox (filter_snapping_groups_based_on_settings s detected)).1 ++
         axisPlanePoints (filter_snapping_groups_based_on_settings s detected)) ∧
    (∀ p ∈ edge_intersection_points edges, p.2.1 = "Edge Intersection") := by
  have hne : edges ≠ [] := by
    intro hnil
    rw [hnil] at hpair
    exact absurd hpair (by simp)
  refine ⟨edge_intersection_points_mem edges e1 e2 ev1 ev2 i hpair hcoin hev1 hev2 hint,
    ?_, edge_intersection_points_kind edges⟩
  rw [assembledPoints]
  rw [← hedges]
  rw [if_neg ?_]
  intro hempty
  exact hne (List.isEmpty_iff.mp hempty)

/-- Two cyclically adjacent coinciding edge candidates for the C6 witness. -/
def c6bedges : List RayPoint :=
  [⟨"Edge", ⟨0, 0, 0⟩, some (⟨-1, 0, 0⟩, ⟨1, 0, 0⟩)⟩,
   ⟨"Edge", ⟨0, 0, 0⟩, some (⟨0, -1, 0⟩, ⟨0, 1, 0⟩)⟩]

def c6bdetected : List DetectedSnap :=
  [DetectedSnap.edgeVertex "wall" c6bedges, DetectedSnap.plane ⟨50, 50, 0⟩]

/-- Witness for the amended C6: an adjacent coinciding pair yields a leading
    `Edge Intersection` candidate. -/
theorem C6_adjacent_edge_intersection_witness :
    ((⟨0, 0, 0⟩ : Vec3), "Edge Intersection", (none : Option Obj)) ∈
      edge_intersection_points c6bedges ∧
    assembledPoints (fun _ _ => []) ⟨["Edge", "Edge Intersection"], []⟩ c6bdetected =
      edge_intersection_points c6bedges ++
        ((collectPoints (fun _ _ => [])
            (filter_snapping_groups_based_on_settings
              ⟨["Edge", "Edge Intersection"], []⟩ c6bdetected)).1 ++
         axisPlanePoints (filter_snapping_groups_based_on_settings
            ⟨["Edge", "Edge Intersection"], []⟩ c6bdetected)) ∧
    (∀ p ∈ edge_intersection_points c6bedges, p.2.1 = "Edge Intersection") :=
  C6_adjacent_edge_intersection (fun _ _ => []) ⟨["Edge", "Edge Intersection"], []⟩
    c6bdetected
    ⟨"Edge", ⟨0, 0, 0⟩, some (⟨-1, 0, 0⟩, ⟨1, 0, 0⟩)⟩
    ⟨"Edge", ⟨0, 0, 0⟩, some (⟨0, -1, 0⟩, ⟨0, 1, 0⟩)⟩
    (⟨-1, 0, 0⟩, ⟨1, 0, 0⟩) (⟨0, -1, 0⟩, ⟨0, 1, 0⟩) ⟨0, 0, 0⟩ c6bedges
    (by with_unfolding_all decide) (by decide) (by with_unfolding_all decide)
    rfl rfl (by with_unfolding_all decide)

theorem detectBase_typesOK (inps : DetectInputs) (prox : Obj → Nat → List RayPoint)
    (h1 : ∀ rp ∈ inps.polyline_cast, rp.type ≠ "Axis")
    (h2 : ∀ l ∈ inps.measure_casts, ∀ rp ∈ l, rp.type ≠ "Axis")
    (h3 : ∀ c ∈ inps.edge_vertex_casts, ∀ rp ∈ c.2, rp.type ≠ "Axis")
    (h4 : ∀ o fi, ∀ rp ∈ prox o fi, rp.type ≠ "Axis") :
    ∀ g ∈ detectBase inps, groupTypesOK prox g := by
  intro g hg
  rw [detectBase] at hg
  rcases List.mem_append.mp hg with hq | hq
  · rcases List.mem_append.mp hq with hq2 | hq2
    · rcases List.mem_append.mp hq2 with hq3 | hq3
      · split at hq3
        · rcases List.mem_singleton.mp hq3 with h5
          rw [h5]
          exact h1
        · exact absurd hq3 (by simp)
      · rcases List.mem_map.mp hq3 with ⟨l, hl, hl2⟩
        rw [← hl2]
        exact h2 l (List.mem_filter.mp hl).1
    · rcases List.mem_map.mp hq2 with ⟨c, hc, hc2⟩
      rw [← hc2]
      exact h3 c (List.mem_filter.mp hc).1
  · split at hq
    · rcases List.mem_filterMap.mp hq with ⟨c, _, hc⟩
      rcases Option.map_eq_some'.mp hc with ⟨hf, _, hg2⟩
      rw [← hg2]
      exact h4 c.1 hf.2
    · split at hq
      · rcases List.mem_singleton.mp hq with h5
        rw [h5]
        rename_i b hb
        exact h4 b.1 b.2.2
      · exact absurd hq (by simp)

/-- Claim C2: a detection tick always yields a selection: the `Plane`
    candidate survives both settings filters, so the filtered candidate list
    is never empty and `select_snapping_points` returns a non-empty list.
    Side conditions: the abstract rotation preserves nonzero vectors (true of
    real rotation matrices) and the external ray casts never produce the
    reserved `"Axis"` point type. -/
theorem C2_select_nonempty (R : Rot) (inps : DetectInputs)
    (prox : Obj → Nat → List RayPoint) (s : SnapSettings) (ts : ToolState)
    (groups : List DetectedSnap) (ts2 : ToolState)
    (hR : ∀ piv ang v, v ≠ Vec3.zero → R.applyInv piv ang v ≠ Vec3.zero)
    (h1 : ∀ rp ∈ inps.polyline_cast, rp.type ≠ "Axis")
    (h2 : ∀ l ∈ inps.measure_casts, ∀ rp ∈ l, rp.type ≠ "Axis")
    (h3 : ∀ c ∈ inps.edge_vertex_casts, ∀ rp ∈ c.2, rp.type ≠ "Axis")
    (h4 : ∀ o fi, ∀ rp ∈ prox o fi, rp.type ≠ "Axis")
    (hdet : detect_snapping_points R inps ts = some (groups, ts2)) :
    ∃ out, select_snapping_points prox s ts2 groups = .ok out ∧ out.points ≠ [] := by
  rcases detect_shape R inps ts groups ts2 hdet with ⟨axisG, ipt, hgroups, hax⟩
  have hplane : DetectedSnap.plane ipt ∈ groups := by
    rw [hgroups]
    exact List.mem_append.mpr (Or.inr (List.mem_singleton.mpr rfl))
  have hfiltne : filter_snapping_points_based_on_settings s (assembledPoints prox s groups)
      ≠ [] := by
    intro hnil
    have hm := plane_point_in_filtered prox s groups ipt hplane
    rw [hnil] at hm
    exact absurd hm (by simp)
  have hg : ∀ g ∈ filter_snapping_groups_based_on_settings s groups, groupTypesOK prox g := by
    intro g hgm
    have hgm2 : g ∈ groups := (List.mem_filter.mp hgm).1
    rw [hgroups] at hgm2
    rcases List.mem_append.mp hgm2 with hq | hq
    · rcases List.mem_append.mp hq with hq2 | hq2
      · exact detectBase_typesOK inps prox h1 h2 h3 h4 g hq2
      · rcases hax with haxnil | ⟨_, ri0, st0, en0, haxeq, _⟩
        · rw [haxnil] at hq2
          exact absurd hq2 (by simp)
        · rw [haxeq] at hq2
          rcases List.mem_singleton.mp hq2 with h5
          rw [h5]
          trivial
    · rcases List.mem_singleton.mp hq with h5
      rw [h5]
      trivial
  have haxline : ∀ st en, lastAxisLine (filter_snapping_groups_based_on_settings s groups)
      = some (st, en) → st ≠ en := by
    intro st en hline
    rcases lastAxisLine_mem _ st en hline with ⟨pt, hmem⟩
    have hmem2 : DetectedSnap.axis pt st en ∈ groups := (List.mem_filter.mp hmem).1
    rw [hgroups] at hmem2
    rcases List.mem_append.mp hmem2 with hq | hq
    · rcases List.mem_append.mp hq with hq2 | hq2
      · rcases detectBase_group inps _ hq2 with h | h | h | h <;>
          simp [DetectedSnap.group] at h
      · rcases hax with haxnil | ⟨_, ri0, st0, en0, haxeq, tsx, r0, hsnap, hc1, hc2, hc3⟩
        · rw [haxnil] at hq2
          exact absurd hq2 (by simp)
        · rw [haxeq] at hq2
          rcases List.mem_singleton.mp hq2 with h5
          injection h5 with e1 e2 e3
          subst e2
          subst e3
          have hsnap2 : snap_on_axis R ⟨inps.polyline_points, inps.elevation⟩ ipt tsx
              = some (r0.1, r0.2.1, some st, some en) := by
            rw [hsnap, ← hc2, ← hc3]
          exact snap_on_axis_line_ne R _ _ _ hR _ _ _ _ hsnap2
    · rcases List.mem_singleton.mp hq with h5
      cases h5
  cases hflt : filter_snapping_points_based_on_settings s (assembledPoints prox s groups) with
  | nil => exact absurd hflt hfiltne
  | cons p0 rest =>
    by_cases hcond : ts2.lock_axis = true ∨ ts2.axis_method = some "X"
        ∨ ts2.axis_method = some "Y" ∨ ts2.axis_method = some "Z"
    · cases hfind : (p0 :: rest).find? (fun p => p.2.1 = "Axis") with
      | none =>
        refine ⟨⟨p0 :: rest, p0, some (p0.1, p0.2.1)⟩, ?_, by simp⟩
        rw [select_snapping_points]
        simp only []
        rw [if_pos hcond, hflt]
        simp only []
        rw [hfind]
      | some axPoint =>
        have haxk : axPoint.2.1 = "Axis" := by
          have := List.find?_some hfind
          exact of_decide_eq_true this
        by_cases hp0 : p0.2.1 = "Axis" ∨ p0.2.1 = "Plane"
        · refine ⟨⟨p0 :: rest, (axPoint.1, axPoint.2.1, none), some (p0.1, p0.2.1)⟩,
            ?_, by simp⟩
          rw [select_snapping_points]
          simp only []
          rw [if_pos hcond, hflt]
          simp only []
          rw [hfind]
          simp only []
          rw [if_pos hp0]
        · have hfound : axPoint ∈ p0 :: rest := List.mem_of_find?_eq_some hfind
          rw [← hflt] at hfound
          have hsrc := assembled_axis_src prox s groups hg axPoint
            (List.mem_filter.mp hfound).1 haxk
          rcases hsrc with ⟨st, en, hmemax⟩
          rcases lastAxisLine_isSome axPoint.1 st en _ hmemax with ⟨se, hline⟩
          rcases se with ⟨st2, en2⟩
          have hstne : st2 ≠ en2 := haxline st2 en2 hline
          cases hmix : mix_snap_and_axis p0 st2 en2 with
          | nil => exact absurd hmix (mix_ne_nil p0 st2 en2 hstne)
          | cons m0 mrest =>
            refine ⟨⟨((m0 :: mrest).reverse.map (fun m => (m.1, m.2, none))) ++ p0 :: rest,
              (m0.1, m0.2, none), some (p0.1, p0.2.1)⟩, ?_, by simp⟩
            rw [select_snapping_points]
            simp only []
            rw [if_pos hcond, hflt]
            simp only []
            rw [hfind]
            simp only []
            rw [if_neg hp0, hline]
            simp only []
            rw [hmix]
    · refine ⟨⟨p0 :: rest, p0, none⟩, ?_, by simp⟩
      rw [select_snapping_points]
      simp only []
      rw [if_neg hcond, hflt]

/-- Witness for C2: the empty-scene tick still selects the Plane fallback. -/
theorem C2_select_nonempty_witness :
    ∃ out, select_snapping_points (fun _ _ => []) ⟨[], []⟩ baseToolState
      [DetectedSnap.plane ⟨0, 0, 0⟩] = .ok out ∧ out.points ≠ [] := by
  refine C2_select_nonempty idRot emptyInputs (fun _ _ => []) ⟨[], []⟩ baseToolState
    [DetectedSnap.plane ⟨0, 0, 0⟩] baseToolState
    (fun _ _ v h => h) ?_ ?_ ?_ ?_ (by with_unfolding_all decide)
  · intro rp hrp
    exact absurd hrp (by simp [emptyInputs])
  · intro l hl
    exact absurd hl (by simp [emptyInputs])
  · intro c hc
    exact absurd hc (by simp [emptyInputs])
  · intro o fi rp hrp
    exact absurd hrp (by simp)
